import Mathlib

/-!
Amazon Bedrock service client (`backend/services/bedrockService.js`).

A shallow embedding of the `BedrockClient` class and of the two exported
functions `generateResponse` and `generateStreamingResponse`.

* JavaScript values are the inductive type `JsVal`; truthiness, property reads
  and strict equality follow the language semantics.
* `async` methods are run to completion; the answers of the outside services
  (STS, the Bedrock runtime, the clock) are arguments (`StsEnv`, `World`).
* What a method does to the outside is returned next to its result: the STS
  calls made, the inference requests sent, the calls made to the `onChunk` sink.
* A thrown exception is `Except.error`; `try { ... } catch (e) { log; throw e }`
  therefore is the identity on results.
* The bytes of a stream chunk are represented by what `JSON.parse` makes of them
  (`Payload`): a `SyntaxError` or the parsed value.
* Dates are milliseconds since the epoch (`Int`); `Date.now()` is an argument.
* `console` output is not modelled, except for the outcome of the two identity
  checks (`Diagnostic`).
-/

namespace BedrockService

/-! ## JavaScript values -/

/-- JavaScript values. Numbers are the integers (only their truthiness is ever
inspected); objects are association lists from property names to values, the
first binding of a name being the one in force. -/
inductive JsVal where
  | undefined
  | null
  | bool (b : Bool)
  | num (n : Int)
  | str (s : String)
  | arr (items : List JsVal)
  | obj (fields : List (String × JsVal))

/-- Exceptions that can travel through the service. -/
inductive JsError where
  /-- Raised by `JSON.parse` on bytes that are not valid JSON. -/
  | syntaxError
  /-- Raised by a property read on `undefined` or `null`. -/
  | typeError
  /-- Raised by `throw new Error(message)`. -/
  | error (message : String)
  /-- Failure reported by the AWS SDK (transport or provider). -/
  | upstream (statusCode : Nat) (requestId : String)
  deriving DecidableEq, Repr

namespace JsVal

/-- JavaScript truthiness (`ToBoolean`). -/
def truthy : JsVal → Bool
  | undefined => false
  | null => false
  | bool b => b
  | num n => n != 0
  | str s => s != ""
  | arr _ => true
  | obj _ => true

/-- Value of `v.key` for a receiver that is not `undefined`/`null`: the own field of
an object, `undefined` for a missing field or a primitive/array receiver (for the
property names read by the service: `role`, `content`, `type`, `delta`, `text`). -/
def member (v : JsVal) (key : String) : JsVal :=
  match v with
  | obj fields => (fields.lookup key).getD undefined
  | _ => undefined

/-- Property read `v.key`: a `TypeError` on `undefined` and `null`. -/
def getProp (v : JsVal) (key : String) : Except JsError JsVal :=
  match v with
  | undefined => .error .typeError
  | null => .error .typeError
  | _ => .ok (v.member key)

/-- Strict equality with a string literal: `v === s`. -/
def strictEq (v : JsVal) (s : String) : Bool :=
  match v with
  | str t => t == s
  | _ => false

/-- Test `Array.isArray(v)`. -/
def isArray : JsVal → Bool
  | arr _ => true
  | _ => false

end JsVal

/-! ## Message preparation (`_prepareMessages`) -/

/-- Content block `{ type: 'text', text: ... }`. -/
structure ContentBlock where
  type : String
  text : JsVal

/-- Entry `{ role, content }` of the formatted message list. -/
structure FormattedMessage where
  role : JsVal
  content : List ContentBlock

/-- Callback of `messages.filter(msg => msg && msg.content)`. -/
def validMessage (msg : JsVal) : Bool :=
  msg.truthy && (msg.member "content").truthy

/-- Binding `const role = msg.role || 'user'`. -/
def roleOf (msg : JsVal) : JsVal :=
  if (msg.member "role").truthy then msg.member "role" else .str "user"

/-- Binding `const content = [{ type: 'text', text: msg.content }]`. -/
def contentOf (msg : JsVal) : List ContentBlock :=
  [{ type := "text", text := msg.member "content" }]

/-- One iteration of `for (const msg of validMessages)`, on the pair
`(formattedMessages, systemMessage)`. -/
def prepareStep (st : List FormattedMessage × JsVal) (msg : JsVal) :
    List FormattedMessage × JsVal :=
  let role := roleOf msg
  let content := contentOf msg
  if role.strictEq "system" then
    (st.1, msg.member "content")
  else if role.strictEq "user" || role.strictEq "assistant" then
    (st.1 ++ [{ role := role, content := content }], st.2)
  else
    (st.1 ++ [{ role := .str "user", content := content }], st.2)

/-- The default user message pushed when nothing was formatted. -/
def helloMessage : FormattedMessage :=
  { role := .str "user", content := [{ type := "text", text := .str "Hello" }] }

/-- Method `BedrockClient._prepareMessages`, as a function of
`this.defaultSystemMessage` and the message array; returns
`[formattedMessages, systemMessage]`. -/
def _prepareMessages (defaultSystemMessage : JsVal) (messages : List JsVal) :
    List FormattedMessage × JsVal :=
  let validMessages := messages.filter validMessage
  let st := validMessages.foldl prepareStep ([], defaultSystemMessage)
  let formattedMessages := if st.1.length = 0 then [helloMessage] else st.1
  (formattedMessages, st.2)

/-! ## Configuration, credentials and the client object -/

/-- Values read from `../config` (a module outside the embedded file). -/
structure Config where
  region : String
  customerCrossAccountRoleArn : Option String
  modelId : String
  systemPrompt : JsVal
  maxTokens : JsVal
  temperature : JsVal

/-- Temporary credentials returned by `assumeRole`; `expiration` is the
`Credentials.Expiration` date in milliseconds since the epoch, `none` when the
reply carries no expiry. -/
structure Credentials where
  accessKeyId : String
  secretAccessKey : String
  sessionToken : String
  expiration : Option Int
  deriving DecidableEq, Repr

/-- Instance of `BedrockRuntimeClient`: its region and the explicit credentials it
was built with (`none`: the default credential chain). -/
structure BedrockRuntimeClient where
  region : String
  credentials : Option Credentials
  deriving DecidableEq, Repr

/-- Fields of a `BedrockClient` instance. `initializationPromise` holds the settled
outcome of the constructor's `_initializeClient()` call; `bedrockClient` is `none`
until the first assignment. -/
structure BedrockClient where
  regionName : String
  crossAccountRoleArn : Option String
  credentialsExpiration : Option Int
  modelId : String
  defaultSystemMessage : JsVal
  maxTokens : JsVal
  temperature : JsVal
  initializationPromise : Except JsError Unit
  initialized : Bool
  bedrockClient : Option BedrockRuntimeClient

/-- Requests sent to the Security Token Service. -/
inductive StsCall where
  | getCallerIdentity
  | assumeRole (roleArn : String) (sessionName : String) (durationSeconds : Nat)
  | verifyIdentity (credentials : Credentials)
  deriving DecidableEq, Repr

/-- Lines written to the console by the two identity checks. -/
inductive Diagnostic where
  | currentIdentity
  | identityCheckFailed (e : JsError)
  | verifiedIdentity
  | verifyFailed (e : JsError)
  deriving DecidableEq, Repr

/-- Answers of the Security Token Service during one run of `_initializeClient`. -/
structure StsEnv where
  getCallerIdentity : Except JsError Unit
  assumeRole : String → Except JsError Credentials
  verifyIdentity : Credentials → Except JsError Unit

/-- Outcome of a credential-layer method: what it returned or threw, the client
fields afterwards, the STS requests it sent and the identity diagnostics logged. -/
structure InitOutcome where
  result : Except JsError Unit
  client : BedrockClient
  stsCalls : List StsCall
  diagnostics : List Diagnostic

/-- White space and line terminators removed by `String.prototype.trim`. -/
def isJsWhiteSpace (ch : Char) : Bool :=
  let n := ch.toNat
  n == 0x09 || n == 0x0A || n == 0x0B || n == 0x0C || n == 0x0D || n == 0x20 ||
  n == 0xA0 || n == 0x1680 || (0x2000 ≤ n && n ≤ 0x200A) || n == 0x2028 ||
  n == 0x2029 || n == 0x202F || n == 0x205F || n == 0x3000 || n == 0xFEFF

/-- Method `String.prototype.trim`. -/
def jsTrim (s : String) : String :=
  String.mk ((s.data.dropWhile isJsWhiteSpace).reverse.dropWhile isJsWhiteSpace).reverse

/-- Truthiness of `this.crossAccountRoleArn` (absent, or a string). -/
def roleTruthy : Option String → Bool
  | none => false
  | some s => s != ""

/-- Condition of line 53:
`this.crossAccountRoleArn && this.crossAccountRoleArn.trim() !== ''`. -/
def useAssumedRole : Option String → Bool
  | none => false
  | some s => s != "" && jsTrim s != ""

/-- Method `BedrockClient.assumeRole` with the default session name: one
`AssumeRoleCommand` for one hour; a failure is logged and thrown again. -/
def assumeRole (env : StsEnv) (roleArn : String) : Except JsError Credentials × List StsCall :=
  let call := StsCall.assumeRole roleArn "BedrockExpressSession" 3600
  match env.assumeRole roleArn with
  | .ok credentials => (.ok credentials, [call])
  | .error e => (.error e, [call])

/-- Method `BedrockClient._initializeClient`. -/
def _initializeClient (self : BedrockClient) (env : StsEnv) : InitOutcome :=
  -- first check the current identity; a failure is only logged
  let d1 : List Diagnostic :=
    match env.getCallerIdentity with
    | .ok _ => [Diagnostic.currentIdentity]
    | .error e => [Diagnostic.identityCheckFailed e]
  match self.crossAccountRoleArn with
  | some roleArn =>
    if useAssumedRole (some roleArn) then
      match assumeRole env roleArn with
      | (.error e, calls) =>
        -- outer catch: log and rethrow; no field has been written yet
        { result := .error e, client := self,
          stsCalls := StsCall.getCallerIdentity :: calls, diagnostics := d1 }
      | (.ok credentials, calls) =>
        -- verification of the assumed identity; a failure is only logged
        let d2 : List Diagnostic :=
          match env.verifyIdentity credentials with
          | .ok _ => [Diagnostic.verifiedIdentity]
          | .error e => [Diagnostic.verifyFailed e]
        { result := .ok (),
          client := { self with
            credentialsExpiration := credentials.expiration
            bedrockClient := some { region := self.regionName, credentials := some credentials }
            initialized := true },
          stsCalls := StsCall.getCallerIdentity :: calls ++ [StsCall.verifyIdentity credentials],
          diagnostics := d1 ++ d2 }
    else
      { result := .ok (),
        client := { self with
          bedrockClient := some { region := self.regionName, credentials := none }
          initialized := true },
        stsCalls := [StsCall.getCallerIdentity], diagnostics := d1 }
  | none =>
    { result := .ok (),
      client := { self with
        bedrockClient := some { region := self.regionName, credentials := none }
        initialized := true },
      stsCalls := [StsCall.getCallerIdentity], diagnostics := d1 }

/-- Constructor of `BedrockClient`: stores the configuration, starts
`_initializeClient()` and keeps its promise; `initialized` is written `false` before
the asynchronous initialization reaches its last statement. -/
def BedrockClient.new (config : Config) (env : StsEnv) : InitOutcome :=
  let self : BedrockClient :=
    { regionName := config.region
      crossAccountRoleArn := config.customerCrossAccountRoleArn
      credentialsExpiration := none
      modelId := config.modelId
      defaultSystemMessage :=
        if config.systemPrompt.truthy then config.systemPrompt
        else .str "You are a helpful AI assistant."
      maxTokens := config.maxTokens
      temperature := config.temperature
      initializationPromise := .ok ()
      initialized := false
      bedrockClient := none }
  let r := _initializeClient self env
  { r with client := { r.client with initializationPromise := r.result } }

/-- Local `shouldRefresh` of `refreshCredentialsIfNeeded`, with `now = Date.now()`:
`forceRefresh || !expiration || new Date(expiration) < new Date(now + 5 * 60 * 1000)`. -/
def shouldRefresh (credentialsExpiration : Option Int) (now : Int) (forceRefresh : Bool) : Bool :=
  forceRefresh ||
    match credentialsExpiration with
    | none => true
    | some expiration => decide (expiration < now + 5 * 60 * 1000)

/-- Method `BedrockClient.refreshCredentialsIfNeeded`. -/
def refreshCredentialsIfNeeded (self : BedrockClient) (now : Int) (env : StsEnv)
    (forceRefresh : Bool) : InitOutcome :=
  if roleTruthy self.crossAccountRoleArn && shouldRefresh self.credentialsExpiration now forceRefresh then
    _initializeClient { self with initialized := false } env
  else
    { result := .ok (), client := self, stsCalls := [], diagnostics := [] }

/-! ## Invocation (`createChatCompletion`) -/

/-- Request body built by `createChatCompletion`; `system` is present only when the
system message is truthy. -/
structure RequestBody where
  anthropic_version : String
  messages : List FormattedMessage
  max_tokens : JsVal
  temperature : JsVal
  system : Option JsVal

/-- Outcome of `JSON.parse(Buffer.from(bytes).toString('utf-8'))` on the bytes of a
stream chunk: a `SyntaxError`, or the parsed value. -/
inductive Payload where
  | malformed
  | json (parsed : JsVal)

/-- Member `chunk` of a stream event; `bytes` may be absent. -/
structure Chunk where
  bytes : Option Payload

/-- Event of the response stream; `chunk` is absent on events of other kinds. -/
structure Event where
  chunk : Option Chunk

/-- Async iterable `streamResponse.body`: the events it delivers and then either the
normal end (`none`) or a transport failure thrown by the iterator. -/
structure EventStream where
  events : List Event
  failure : Option JsError

/-- Reply of `InvokeModelWithResponseStreamCommand`. -/
structure StreamResponse where
  body : Option EventStream

/-- Command handed to `this.bedrockClient.send`. -/
structure InvokeCommand where
  streaming : Bool
  client : BedrockRuntimeClient
  modelId : String
  body : RequestBody

/-- Value returned by `createChatCompletion`: the parsed response body
(`stream = false`) or the stream response (`stream = true`). -/
inductive Completion where
  | body (responseBody : JsVal)
  | stream (streamResponse : StreamResponse)

/-- The outside world during one call: the clock, the Security Token Service and the
Bedrock runtime. `invokeModel` answers `send(InvokeModelCommand)` followed by
`JSON.parse` of the body; `invokeModelWithResponseStream` answers the streaming send. -/
structure World where
  now : Int
  sts : StsEnv
  invokeModel : InvokeCommand → Except JsError JsVal
  invokeModelWithResponseStream : InvokeCommand → Except JsError StreamResponse

/-- Outcome of `createChatCompletion`. -/
structure CompletionOutcome where
  result : Except JsError Completion
  client : BedrockClient
  stsCalls : List StsCall
  sent : List InvokeCommand

/-- Lines 218-225 of `createChatCompletion`: wait for the constructor's
initialization when `initialized` is false, then `refreshCredentialsIfNeeded()`. -/
def readinessSteps (self : BedrockClient) (w : World) : InitOutcome :=
  match (if !self.initialized then self.initializationPromise else .ok ()) with
  | .error e => { result := .error e, client := self, stsCalls := [], diagnostics := [] }
  | .ok _ => refreshCredentialsIfNeeded self w.now w.sts false

/-- Elements of `messages` when it is an array. -/
def arrayItems : JsVal → List JsVal
  | .arr items => items
  | _ => []

/-- Test `!Array.isArray(messages) || messages.length === 0`. -/
def invalidMessages (messages : JsVal) : Bool :=
  !messages.isArray || (arrayItems messages).length == 0

/-- Lines 237-250 of `createChatCompletion`: the request body for a message array. -/
def buildRequestBody (self : BedrockClient) (messages : List JsVal) : RequestBody :=
  let prepared := _prepareMessages self.defaultSystemMessage messages
  { anthropic_version := "bedrock-2023-05-31"
    messages := prepared.1
    max_tokens := self.maxTokens
    temperature := self.temperature
    system := if prepared.2.truthy then some prepared.2 else none }

/-- Method `BedrockClient.createChatCompletion`. -/
def createChatCompletion (self : BedrockClient) (w : World) (messages : JsVal)
    (stream : Bool) : CompletionOutcome :=
  let ready := readinessSteps self w
  match ready.result with
  | .error e => { result := .error e, client := ready.client, stsCalls := ready.stsCalls, sent := [] }
  | .ok _ =>
    if invalidMessages messages then
      { result := .error (.error "Messages must be a non-empty array"),
        client := ready.client, stsCalls := ready.stsCalls, sent := [] }
    else
      match ready.client.bedrockClient with
      | none =>
        -- `this.bedrockClient.send` on an unassigned field
        { result := .error .typeError, client := ready.client, stsCalls := ready.stsCalls, sent := [] }
      | some bedrockClient =>
        let command : InvokeCommand :=
          { streaming := stream, client := bedrockClient, modelId := ready.client.modelId,
            body := buildRequestBody ready.client (arrayItems messages) }
        let result : Except JsError Completion :=
          if !stream then
            match w.invokeModel command with
            | .ok responseBody => .ok (.body responseBody)
            | .error e => .error e
          else
            match w.invokeModelWithResponseStream command with
            | .ok streamResponse => .ok (.stream streamResponse)
            | .error e => .error e
        { result := result, client := ready.client, stsCalls := ready.stsCalls, sent := [command] }

/-! ## Exported functions -/

/-- Outcome of `generateResponse`. -/
structure ResponseOutcome where
  result : Except JsError JsVal
  client : BedrockClient
  stsCalls : List StsCall
  sent : List InvokeCommand

/-- Lines 298-303 of `generateResponse`: the shape test on the response and the value
returned or the error thrown. -/
def extractText (response : JsVal) : Except JsError JsVal :=
  if response.truthy && (response.member "content").truthy then
    match response.member "content" with
    | .arr (first :: _) => first.getProp "text"
    | _ => .error (.error "Unexpected response format from Bedrock")
  else
    .error (.error "Unexpected response format from Bedrock")

/-- The stream response seen as a JavaScript object by a property read. -/
def Completion.toJs : Completion → JsVal
  | .body responseBody => responseBody
  | .stream _ => .obj []

/-- Function `generateResponse`, on the singleton client. -/
def generateResponse (self : BedrockClient) (w : World) (messages : JsVal) : ResponseOutcome :=
  let r := createChatCompletion self w messages false
  match r.result with
  | .error e => { result := .error e, client := r.client, stsCalls := r.stsCalls, sent := r.sent }
  | .ok response =>
    { result := extractText response.toJs, client := r.client, stsCalls := r.stsCalls, sent := r.sent }

/-- Body of the `for await` loop of `generateStreamingResponse` for one event: the
argument handed to `onChunk` if it is called, or the exception thrown. -/
def processEvent (event : Event) : Except JsError (Option JsVal) :=
  match event.chunk with
  | none => .ok none
  | some chunk =>
    match chunk.bytes with
    | none => .ok none
    | some .malformed => .error .syntaxError
    | some (.json parsed) =>
      match parsed.getProp "type" with
      | .error e => .error e
      | .ok type =>
        if type.strictEq "content_block_delta" && (parsed.member "delta").truthy
            && ((parsed.member "delta").member "text").truthy then
          .ok (some ((parsed.member "delta").member "text"))
        else
          .ok none

/-- The `for await` loop over the delivered events; `sink` lists the `onChunk` calls
made so far, oldest first. Returns the exception that left the loop, if any. -/
def consumeEvents : List Event → List JsVal → Option JsError × List JsVal
  | [], sink => (none, sink)
  | event :: rest, sink =>
    match processEvent event with
    | .error e => (some e, sink)
    | .ok none => consumeEvents rest sink
    | .ok (some text) => consumeEvents rest (sink ++ [text])

/-- Lines 321-335 of `generateStreamingResponse`: iterate `streamResponse.body`. -/
def consumeStream (streamResponse : StreamResponse) : Except JsError Bool × List JsVal :=
  match streamResponse.body with
  | none => (.error .typeError, [])
  | some stream =>
    match consumeEvents stream.events [] with
    | (some e, sink) => (.error e, sink)
    | (none, sink) =>
      match stream.failure with
      | some e => (.error e, sink)
      | none => (.ok true, sink)

/-- Outcome of `generateStreamingResponse`; `sink` lists the `onChunk` calls in order. -/
structure StreamingOutcome where
  result : Except JsError Bool
  sink : List JsVal
  client : BedrockClient
  stsCalls : List StsCall
  sent : List InvokeCommand

/-- Function `generateStreamingResponse`, on the singleton client. -/
def generateStreamingResponse (self : BedrockClient) (w : World) (messages : JsVal) :
    StreamingOutcome :=
  let r := createChatCompletion self w messages true
  match r.result with
  | .error e =>
    { result := .error e, sink := [], client := r.client, stsCalls := r.stsCalls, sent := r.sent }
  | .ok (.body _) =>
    -- not produced for `stream = true`: a body has no iterable `body` member
    { result := .error .typeError, sink := [], client := r.client, stsCalls := r.stsCalls,
      sent := r.sent }
  | .ok (.stream streamResponse) =>
    let c := consumeStream streamResponse
    { result := c.1, sink := c.2, client := r.client, stsCalls := r.stsCalls, sent := r.sent }

/-! ## Sequences of calls on one client -/

/-- A call made on the client object after its construction. -/
inductive ClientCall where
  | refresh (now : Int) (env : StsEnv) (forceRefresh : Bool)
  | chat (w : World) (messages : JsVal) (stream : Bool)

/-- Whether the call is `refreshCredentialsIfNeeded`. -/
def ClientCall.isRefresh : ClientCall → Bool
  | .refresh _ _ _ => true
  | .chat _ _ _ => false

/-- The exception of a result, if it is one. -/
def errorOf {α : Type} : Except JsError α → Option JsError
  | .error e => some e
  | .ok _ => none

/-- What one call did: the exception it threw (if any), the client fields when it
ended, the requests sent to the Security Token Service and to the Bedrock runtime. -/
structure CallRecord where
  call : ClientCall
  failure : Option JsError
  client : BedrockClient
  stsCalls : List StsCall
  sent : List InvokeCommand

/-- One call on the client. -/
def performCall (self : BedrockClient) : ClientCall → CallRecord
  | .refresh now env forceRefresh =>
    let r := refreshCredentialsIfNeeded self now env forceRefresh
    { call := .refresh now env forceRefresh, failure := errorOf r.result, client := r.client,
      stsCalls := r.stsCalls, sent := [] }
  | .chat w messages stream =>
    let r := createChatCompletion self w messages stream
    { call := .chat w messages stream, failure := errorOf r.result, client := r.client,
      stsCalls := r.stsCalls, sent := r.sent }

/-- The records of a sequence of calls made one after the other, oldest first. -/
def history (self : BedrockClient) : List ClientCall → List CallRecord
  | [] => []
  | call :: rest => performCall self call :: history (performCall self call).client rest

/-- The client fields after a sequence of calls. -/
def clientAfter (self : BedrockClient) : List ClientCall → BedrockClient
  | [] => self
  | call :: rest => clientAfter (performCall self call).client rest

/-! ## Interleaved refreshes

An `async` method runs without interruption from one `await` to the next. Two calls
of `refreshCredentialsIfNeeded` that are in progress at the same time therefore
interleave segment by segment, in the order in which the awaited answers arrive. -/

/-- Where a call of `refreshCredentialsIfNeeded` stands: not started, suspended at one of
the three `await`s of `_initializeClient` (identity check, role assumption, verification
of the assumed identity), or finished with a result. -/
inductive RefreshPc where
  | start (forceRefresh : Bool)
  | awaitIdentity
  | awaitAssumeRole (roleArn : String)
  | awaitVerify (credentials : Credentials)
  | done (result : Except JsError Unit)

/-- Whether the call has finished. -/
def RefreshPc.isDone : RefreshPc → Bool
  | .done _ => true
  | _ => false

/-- The code of `refreshCredentialsIfNeeded`, `_initializeClient` included, that runs from
one suspension point to the next: the client fields afterwards, the next suspension
point and the requests sent to the Security Token Service on the way. -/
def refreshSegment (self : BedrockClient) (now : Int) (env : StsEnv) :
    RefreshPc → BedrockClient × RefreshPc × List StsCall
  | .start forceRefresh =>
    -- lines 140-147, then `_initializeClient` up to the first identity check
    if roleTruthy self.crossAccountRoleArn
        && shouldRefresh self.credentialsExpiration now forceRefresh then
      ({ self with initialized := false }, .awaitIdentity, [StsCall.getCallerIdentity])
    else
      (self, .done (.ok ()), [])
  | .awaitIdentity =>
    -- the answer of the identity check is logged; line 53 chooses the branch
    match self.crossAccountRoleArn with
    | some roleArn =>
      if useAssumedRole (some roleArn) then
        (self, .awaitAssumeRole roleArn,
          [StsCall.assumeRole roleArn "BedrockExpressSession" 3600])
      else
        ({ self with
            bedrockClient := some { region := self.regionName, credentials := none }
            initialized := true },
          .done (.ok ()), [])
    | none =>
      ({ self with
          bedrockClient := some { region := self.regionName, credentials := none }
          initialized := true },
        .done (.ok ()), [])
  | .awaitAssumeRole roleArn =>
    match env.assumeRole roleArn with
    | .error e => (self, .done (.error e), [])
    | .ok credentials =>
      -- lines 56-66 run together, then the verification request is sent
      ({ self with
          credentialsExpiration := credentials.expiration
          bedrockClient := some { region := self.regionName, credentials := some credentials } },
        .awaitVerify credentials, [StsCall.verifyIdentity credentials])
  | .awaitVerify _ =>
    -- the answer of the verification is logged; line 96
    ({ self with initialized := true }, .done (.ok ()), [])
  | .done result => (self, .done result, [])

/-- Two callers of `refreshCredentialsIfNeeded` on one client: the shared client fields,
where each caller stands, and all requests sent to the Security Token Service so far. -/
structure Interleaving where
  client : BedrockClient
  callerA : RefreshPc
  callerB : RefreshPc
  stsCalls : List StsCall

/-- The next segment of caller A (`pickA = true`) or of caller B runs; each caller gets
its own answers from the Security Token Service. -/
def Interleaving.step (now : Int) (envA envB : StsEnv) (s : Interleaving) (pickA : Bool) :
    Interleaving :=
  if pickA then
    let r := refreshSegment s.client now envA s.callerA
    { s with client := r.1, callerA := r.2.1, stsCalls := s.stsCalls ++ r.2.2 }
  else
    let r := refreshSegment s.client now envB s.callerB
    { s with client := r.1, callerB := r.2.1, stsCalls := s.stsCalls ++ r.2.2 }

/-- Two calls `refreshCredentialsIfNeeded(forceA)` and `refreshCredentialsIfNeeded(forceB)`
on the client `self`, their segments run in the order given by `schedule`. -/
def interleave (now : Int) (envA envB : StsEnv) (self : BedrockClient) (forceA forceB : Bool)
    (schedule : List Bool) : Interleaving :=
  schedule.foldl (Interleaving.step now envA envB)
    { client := self, callerA := .start forceA, callerB := .start forceB, stsCalls := [] }

/-- Whether a request is a role assumption (the delegation exchange). -/
def StsCall.isAssumeRole : StsCall → Bool
  | .assumeRole _ _ _ => true
  | _ => false

/-- Number of delegation exchanges among the requests sent. -/
def assumeRoleCount (calls : List StsCall) : Nat :=
  (calls.filter StsCall.isAssumeRole).length

/-- Number of delegation exchanges a forced refresh on a delegated client has sent when
it stands at the given point. -/
def RefreshPc.exchanged : RefreshPc → Nat
  | .start _ => 0
  | .awaitIdentity => 0
  | _ => 1

/-- The stored credential is whole: either the inference client and the expiry are those
of `initial`, or both come from one and the same set of temporary credentials, returned
to one of the two callers. -/
def Untorn (envA envB : StsEnv) (roleArn : String) (initial current : BedrockClient) : Prop :=
  (current.bedrockClient = initial.bedrockClient ∧
    current.credentialsExpiration = initial.credentialsExpiration) ∨
  ∃ credentials : Credentials,
    (envA.assumeRole roleArn = .ok credentials ∨ envB.assumeRole roleArn = .ok credentials) ∧
    current.bedrockClient =
      some { region := initial.regionName, credentials := some credentials } ∧
    current.credentialsExpiration = credentials.expiration

/-- What holds of two interleaved forced refreshes on a client delegated to `roleArn`,
whatever the schedule: the role identifier and the region are not written, each caller
asks for that role, the delegation exchanges sent are those of the two callers, and the
stored credential is whole. -/
def RefreshInvariant (envA envB : StsEnv) (roleArn : String) (initial : BedrockClient)
    (s : Interleaving) : Prop :=
  s.client.crossAccountRoleArn = some roleArn ∧
  s.client.regionName = initial.regionName ∧
  s.callerA ≠ .start false ∧
  s.callerB ≠ .start false ∧
  (∀ arn, s.callerA = .awaitAssumeRole arn → arn = roleArn) ∧
  (∀ arn, s.callerB = .awaitAssumeRole arn → arn = roleArn) ∧
  assumeRoleCount s.stsCalls = s.callerA.exchanged + s.callerB.exchanged ∧
  Untorn envA envB roleArn initial s.client

/-! ## Vocabulary of the specification -/

/-- A turn whose role label is `system`. -/
def isSystemTurn (turn : JsVal) : Bool :=
  (turn.member "role").strictEq "system"

/-- Text of the last system turn of a turn sequence, if there is one. -/
def lastSystemText (turns : List JsVal) : Option JsVal :=
  (turns.filter isSystemTurn).getLast?.map fun turn => turn.member "content"

/-- Role of a normalized turn: kept if it is `user` or `assistant`, `user` otherwise
(absent role included). -/
def normalizedRole (turn : JsVal) : JsVal :=
  if (turn.member "role").strictEq "user" || (turn.member "role").strictEq "assistant" then
    turn.member "role"
  else
    .str "user"

/-- A normalized turn: the role and one text block holding the turn's text unchanged. -/
def normalizedTurn (turn : JsVal) : FormattedMessage :=
  { role := normalizedRole turn, content := [{ type := "text", text := turn.member "content" }] }

/-- The text of a chat turn: the value stored under `content` when the turn is an
object that has such a field; a turn of any other kind has no text. -/
def turnText : JsVal → Option JsVal
  | .obj fields => fields.lookup "content"
  | _ => none

/-- An empty text: no value at all (`undefined`, `null`), the empty string, or one of
the other values JavaScript counts as nothing (`false`, `0`). -/
def emptyText : JsVal → Bool
  | .undefined => true
  | .null => true
  | .str s => decide (s = "")
  | .bool b => !b
  | .num n => decide (n = 0)
  | .arr _ => false
  | .obj _ => false

/-- A turn with non-empty text; turns with empty or absent text are the others. -/
def hasText (turn : JsVal) : Bool :=
  match turnText turn with
  | some text => !emptyText text
  | none => false

/-- A chat turn `{ role, content }` as a JavaScript object. -/
def chatTurn (role text : String) : JsVal :=
  .obj [("role", .str role), ("content", .str text)]

/-- A frame the decoder can read: its bytes, when present, are valid JSON holding a
value with properties (any value but the literal `null`; every JSON object qualifies). -/
def wellFormedFrame (event : Event) : Bool :=
  match event.chunk with
  | none => true
  | some chunk =>
    match chunk.bytes with
    | none => true
    | some .malformed => false
    | some (.json .null) => false
    | some (.json .undefined) => false
    | some (.json _) => true

/-- Text fragment carried by a frame: the payload type is `content_block_delta` and the
payload holds a (non-empty) `delta.text`. -/
def deltaText (event : Event) : Option JsVal :=
  match event.chunk with
  | none => none
  | some chunk =>
    match chunk.bytes with
    | some (.json parsed) =>
      if (parsed.member "type").strictEq "content_block_delta"
          && ((parsed.member "delta").member "text").truthy then
        some ((parsed.member "delta").member "text")
      else
        none
    | _ => none

/-- A JavaScript value read as text: the string itself, nothing for other values. -/
def asText : JsVal → String
  | .str s => s
  | _ => ""

/-- Delta text of a frame as a string, the empty fragment included: the string
`delta.text` of a `content_block_delta` payload, the empty string for any other frame. -/
def rawDeltaString (event : Event) : String :=
  match event.chunk with
  | none => ""
  | some chunk =>
    match chunk.bytes with
    | some (.json parsed) =>
      if (parsed.member "type").strictEq "content_block_delta" then
        asText ((parsed.member "delta").member "text")
      else
        ""
    | _ => ""

/-- A well-formed content-delta frame with the given text. -/
def deltaFrame (text : String) : Event :=
  { chunk := some { bytes := some (.json (.obj
      [("type", .str "content_block_delta"), ("delta", .obj [("text", .str text)])])) } }

/-- A frame whose bytes are not valid JSON. -/
def malformedFrame : Event :=
  { chunk := some { bytes := some .malformed } }

/-- The provider reply lacks the expected content field: `content` is absent, not a
list, or an empty list. -/
def lacksContent (response : JsVal) : Bool :=
  match response.member "content" with
  | .arr (_ :: _) => false
  | _ => true

/-- Concatenation of text fragments, in order. -/
def concatText : List String → String
  | [] => ""
  | fragment :: rest => fragment ++ concatText rest

/-- The client is un-ready after a first initialization that failed with `e`: the
constructor's promise is rejected with `e` and `initialized` is false. -/
def Unready (self : BedrockClient) (e : JsError) : Prop :=
  self.initialized = false ∧ self.initializationPromise = .error e

/-! ## Sample values -/

/-- Temporary credentials with a given expiry. -/
def sampleCredentials (expiration : Option Int) : Credentials :=
  { accessKeyId := "ASIAEXAMPLE", secretAccessKey := "secret", sessionToken := "token",
    expiration := expiration }

/-- A Security Token Service that answers every request; assumed roles expire at
`expiration`. -/
def sampleSts (expiration : Option Int) : StsEnv :=
  { getCallerIdentity := .ok ()
    assumeRole := fun _ => .ok (sampleCredentials expiration)
    verifyIdentity := fun _ => .ok () }

/-- An initialized client with the given role identifier and stored expiry. -/
def sampleClient (roleArn : Option String) (expiration : Option Int) : BedrockClient :=
  { regionName := "us-east-1"
    crossAccountRoleArn := roleArn
    credentialsExpiration := expiration
    modelId := "anthropic.claude-3-sonnet-20240229-v1:0"
    defaultSystemMessage := .str "You are a helpful AI assistant."
    maxTokens := .num 1000
    temperature := .num 1
    initializationPromise := .ok ()
    initialized := true
    bedrockClient := some { region := "us-east-1", credentials := none } }

/-- A world at time `0` whose provider answers every blocking call with `reply` and every
streaming call with a stream that delivers `events` and then ends as `failure` says. -/
def stubWorld (reply : JsVal) (events : List Event) (failure : Option JsError) : World :=
  { now := 0
    sts := sampleSts (some 3600000)
    invokeModel := fun _ => .ok reply
    invokeModelWithResponseStream := fun _ =>
      .ok { body := some { events := events, failure := failure } } }

/-- The conversation `[{user, "Hi"}]`. -/
def hiMessages : JsVal :=
  .arr [chatTurn "user" "Hi"]

/-- Frames `a`, malformed, `b`: one malformed frame between two content-delta frames. -/
def framesWithMalformed : List Event :=
  [deltaFrame "a", malformedFrame, deltaFrame "b"]

/-- Frames of the streaming scenario: a frame of another type, then the content-delta
frames "Hel", "lo", "!" with a frame without chunk in between. -/
def helloFrames : List Event :=
  [{ chunk := some { bytes := some (.json (.obj [("type", .str "message_start")])) } },
    deltaFrame "Hel", deltaFrame "lo", { chunk := none }, deltaFrame "!"]

/-- A conversation with a system turn, a user turn with empty text, an assistant turn
without text, a turn with an unknown role, a turn without role, a `null` entry, an
assistant turn and a user turn. -/
def mixedTurns : List JsVal :=
  [chatTurn "system" "Be terse",
    chatTurn "user" "",
    .obj [("role", .str "assistant")],
    chatTurn "tool" "42",
    .obj [("content", .str "no role")],
    .null,
    chatTurn "assistant" "Hello there",
    chatTurn "user" "Hi"]

/-- Turns none of which is a non-system turn with text: a user turn with empty text, a
system turn, an assistant turn without text and a `null` entry. -/
def textlessTurns : List JsVal :=
  [chatTurn "user" "", chatTurn "system" "Be terse", .obj [("role", .str "assistant")], .null]

/-- A provider reply whose content is the given list of blocks. -/
def replyWith (blocks : List JsVal) : JsVal :=
  .obj [("content", .arr blocks)]

/-- A text content block. -/
def textBlock (text : String) : JsVal :=
  .obj [("type", .str "text"), ("text", .str text)]

/-- A world at time `0` whose provider fails every inference call with `e`. -/
def failingWorld (e : JsError) : World :=
  { now := 0
    sts := sampleSts (some 3600000)
    invokeModel := fun _ => .error e
    invokeModelWithResponseStream := fun _ => .error e }

/-- The command a ready sample client sends for the conversation `hiMessages`. -/
def hiCommand (streaming : Bool) : InvokeCommand :=
  { streaming := streaming
    client := { region := "us-east-1", credentials := none }
    modelId := "anthropic.claude-3-sonnet-20240229-v1:0"
    body := buildRequestBody (sampleClient none none) [chatTurn "user" "Hi"] }

/-- A Security Token Service on which both identity checks fail while role assumption
is answered as by `sampleSts`. -/
def identityFailingSts (expiration : Option Int) : StsEnv :=
  { getCallerIdentity := .error (.upstream 403 "id-1")
    assumeRole := fun _ => .ok (sampleCredentials expiration)
    verifyIdentity := fun _ => .error (.upstream 403 "id-2") }

/-- A configuration with the given role identifier. -/
def sampleConfig (roleArn : Option String) : Config :=
  { region := "us-east-1"
    customerCrossAccountRoleArn := roleArn
    modelId := "anthropic.claude-3-sonnet-20240229-v1:0"
    systemPrompt := .undefined
    maxTokens := .num 1000
    temperature := .num 1 }

/-- A Security Token Service that refuses every role assumption. -/
def denyingSts : StsEnv :=
  { getCallerIdentity := .ok ()
    assumeRole := fun _ => .error (.upstream 403 "AccessDenied")
    verifyIdentity := fun _ => .ok () }

/-- A client constructed with a delegated role while the Security Token Service answers;
its credentials expire one hour after time `0`. -/
def delegatedStart : BedrockClient :=
  (BedrockClient.new (sampleConfig (some "arn:aws:iam::1:role/r")) (sampleSts (some 3600000))).client

/-- A forced refresh that the Security Token Service refuses, followed by a chat call,
both at time `0`. -/
def staleScenario : List ClientCall :=
  [.refresh 0 denyingSts true,
    .chat (stubWorld (replyWith [textBlock "Hello"]) [] none) hiMessages false]

/-- A client constructed with a delegated role that the Security Token Service refuses. -/
def refusedStart : BedrockClient :=
  (BedrockClient.new (sampleConfig (some "arn:aws:iam::1:role/r")) denyingSts).client

/-- A chat call, a refused refresh and a streaming chat call. -/
def refusedScenario : List ClientCall :=
  [.chat (stubWorld (replyWith [textBlock "Hello"]) [] none) hiMessages false,
    .refresh 0 denyingSts true,
    .chat (stubWorld (replyWith [textBlock "Hello"]) helloFrames none) hiMessages true]

/-- A client constructed with a role identifier made of three spaces. -/
def blankRoleStart : BedrockClient :=
  (BedrockClient.new (sampleConfig (some "   ")) (sampleSts (some 3600000))).client

/-- A Security Token Service that hands out credentials with another key and expiry. -/
def otherSts : StsEnv :=
  { getCallerIdentity := .ok ()
    assumeRole := fun _ => .ok
      { accessKeyId := "ASIAOTHER", secretAccessKey := "secret2", sessionToken := "token2",
        expiration := some 7200000 }
    verifyIdentity := fun _ => .ok () }

/-- Two forced refreshes started together, their answers arriving in turn. -/
def alternatingSchedule : List Bool :=
  [true, false, true, false, true, false, true, false]

/-- Two forced refreshes started together, the second caller overtaking the first. -/
def overtakingSchedule : List Bool :=
  [true, false, false, false, true, true, false, true]

/-! # Theorems -/

/-! ## Message preparation -/

theorem strictEq_eq_true_iff (v : JsVal) (s : String) : v.strictEq s = true ↔ v = .str s := by
  cases v <;> simp [JsVal.strictEq]

/-- One loop iteration, in the vocabulary of the specification. -/
theorem prepareStep_eq (st : List FormattedMessage × JsVal) (msg : JsVal) :
    prepareStep st msg =
      if isSystemTurn msg then (st.1, msg.member "content")
      else (st.1 ++ [normalizedTurn msg], st.2) := by
  unfold prepareStep roleOf isSystemTurn normalizedTurn normalizedRole contentOf
  cases hr : msg.member "role" with
  | str s =>
    by_cases h0 : s = ""
    · subst h0; simp [JsVal.truthy, JsVal.strictEq]
    · by_cases h1 : s = "system"
      · subst h1; simp [JsVal.truthy, JsVal.strictEq]
      · by_cases h2 : s = "user"
        · subst h2; simp [JsVal.truthy, JsVal.strictEq]
        · by_cases h3 : s = "assistant"
          · subst h3; simp [JsVal.truthy, JsVal.strictEq]
          · simp [JsVal.truthy, JsVal.strictEq, h0, h1, h2, h3]
  | bool b => cases b <;> simp [JsVal.truthy, JsVal.strictEq]
  | num n => by_cases hn : n = 0 <;> simp [JsVal.truthy, JsVal.strictEq, hn]
  | undefined => simp [JsVal.truthy, JsVal.strictEq]
  | null => simp [JsVal.truthy, JsVal.strictEq]
  | arr items => simp [JsVal.truthy, JsVal.strictEq]
  | obj fields => simp [JsVal.truthy, JsVal.strictEq]

/-- The loop of `_prepareMessages` as a filter and a map, for any starting state. -/
theorem foldl_prepareStep (turns : List JsVal) (acc : List FormattedMessage) (sys : JsVal) :
    turns.foldl prepareStep (acc, sys) =
      (acc ++ (turns.filter fun t => !isSystemTurn t).map normalizedTurn,
        (lastSystemText turns).getD sys) := by
  induction turns generalizing acc sys with
  | nil => simp [lastSystemText]
  | cons t rest ih =>
    rw [List.foldl_cons, prepareStep_eq]
    by_cases hs : isSystemTurn t = true
    · simp only [hs, if_true, ih]
      simp [lastSystemText, List.filter_cons, hs, List.getLast?_cons]
    · have hs2 : isSystemTurn t = false := by simpa using hs
      simp only [hs2, Bool.false_eq_true, if_false, ih]
      simp [lastSystemText, List.filter_cons, hs2]

/-- The turn list of `_prepareMessages` before the default message is considered. -/
theorem prepareMessages_turns (d : JsVal) (messages : List JsVal) :
    (_prepareMessages d messages).1 =
      if ((messages.filter fun m => validMessage m && !isSystemTurn m).map normalizedTurn).length = 0
      then [helloMessage]
      else (messages.filter fun m => validMessage m && !isSystemTurn m).map normalizedTurn := by
  simp [_prepareMessages, foldl_prepareStep, List.filter_filter, Bool.and_comm]

/-- C3 (as amended). The system instruction returned by `_prepareMessages` is the text of
the last system turn among the turns that survive the empty-text filter, exactly (no
concatenation with another system text or with the default); when no system turn with
non-empty text exists it is the default instruction. -/
theorem prepareMessages_system_last_valid (d : JsVal) (messages : List JsVal) :
    (_prepareMessages d messages).2 = (lastSystemText (messages.filter validMessage)).getD d := by
  unfold _prepareMessages
  show ((messages.filter validMessage).foldl prepareStep ([], d)).2 = _
  rw [foldl_prepareStep]

/-- C3 (counterexample). With the single system turn `{system, ""}` followed by the user turn
`{user, "Hi"}` the last system turn has text `""`, yet the returned system instruction is
the default one. -/
theorem prepareMessages_system_counterexample :
    (∃ m ∈ [chatTurn "system" "", chatTurn "user" "Hi"], isSystemTurn m = true) ∧
    lastSystemText [chatTurn "system" "", chatTurn "user" "Hi"] = some (.str "") ∧
    (_prepareMessages (.str "You are a helpful AI assistant.")
        [chatTurn "system" "", chatTurn "user" "Hi"]).2 = .str "You are a helpful AI assistant." ∧
    some (_prepareMessages (.str "You are a helpful AI assistant.")
        [chatTurn "system" "", chatTurn "user" "Hi"]).2 ≠
      lastSystemText [chatTurn "system" "", chatTurn "user" "Hi"] := by
  refine ⟨⟨chatTurn "system" "", by simp, by decide⟩, by rfl, ?_, ?_⟩
  · rfl
  · intro h
    have h1 : lastSystemText [chatTurn "system" "", chatTurn "user" "Hi"] = some (.str "") := rfl
    have h2 : (_prepareMessages (.str "You are a helpful AI assistant.")
        [chatTurn "system" "", chatTurn "user" "Hi"]).2 = .str "You are a helpful AI assistant." := rfl
    rw [h1, h2] at h
    simp at h

/-- The filter callback of `_prepareMessages` keeps exactly the turns with non-empty text. -/
theorem validMessage_eq_hasText (msg : JsVal) : validMessage msg = hasText msg := by
  cases msg with
  | obj fields =>
    simp only [validMessage, hasText, turnText, JsVal.member, JsVal.truthy, Bool.true_and]
    cases fields.lookup "content" with
    | none => rfl
    | some text =>
      cases text with
      | undefined => rfl
      | null => rfl
      | bool b => cases b <;> rfl
      | num n => by_cases hn : n = 0 <;> simp [JsVal.truthy, emptyText, hn]
      | str t => by_cases ht : t = "" <;> simp [JsVal.truthy, emptyText, ht]
      | arr items => rfl
      | obj inner => rfl
  | undefined => rfl
  | null => rfl
  | bool b => cases b <;> rfl
  | num n => simp [validMessage, hasText, turnText, JsVal.member, JsVal.truthy]
  | str t => simp [validMessage, hasText, turnText, JsVal.member, JsVal.truthy]
  | arr items => rfl

/-- The turn list of `_prepareMessages` in the vocabulary of the specification: the
non-system turns with text, normalized, or the single user turn "Hello" when there is
none. -/
theorem prepareMessages_turns_hasText (d : JsVal) (messages : List JsVal) :
    (_prepareMessages d messages).1 =
      if (messages.filter fun m => hasText m && !isSystemTurn m).isEmpty
      then [{ role := .str "user", content := [{ type := "text", text := .str "Hello" }] }]
      else (messages.filter fun m => hasText m && !isSystemTurn m).map normalizedTurn := by
  rw [prepareMessages_turns]
  have hfun : (fun m => validMessage m && !isSystemTurn m) =
      (fun m => hasText m && !isSystemTurn m) := by
    funext m
    rw [validMessage_eq_hasText]
  rw [hfun]
  cases hl : (messages.filter fun m => hasText m && !isSystemTurn m) with
  | nil => rfl
  | cons t rest => simp

/-- C4. The turn list returned by `_prepareMessages` is never empty; when no
non-system turn with non-empty text remains (in particular for an empty input, and when
every turn has empty or absent text) it is exactly one turn, with role `user` and the
single text block "Hello". -/
theorem prepareMessages_nonempty_fallback (d : JsVal) (messages : List JsVal) :
    (_prepareMessages d messages).1 ≠ [] ∧
    ((∀ m ∈ messages, hasText m = true → isSystemTurn m = true) →
      (_prepareMessages d messages).1 =
        [{ role := .str "user", content := [{ type := "text", text := .str "Hello" }] }]) ∧
    ((∀ m ∈ messages, hasText m = false) →
      (_prepareMessages d messages).1 =
        [{ role := .str "user", content := [{ type := "text", text := .str "Hello" }] }]) ∧
    (_prepareMessages d []).1 =
      [{ role := .str "user", content := [{ type := "text", text := .str "Hello" }] }] := by
  have key : (∀ m ∈ messages, hasText m = true → isSystemTurn m = true) →
      (_prepareMessages d messages).1 =
        [{ role := .str "user", content := [{ type := "text", text := .str "Hello" }] }] := by
    intro h
    have hnil : (messages.filter fun m => hasText m && !isSystemTurn m) = [] := by
      rw [List.filter_eq_nil_iff]
      intro m hm
      cases hv : hasText m
      · simp
      · simp [h m hm hv]
    rw [prepareMessages_turns_hasText, hnil]
    rfl
  refine ⟨?_, key, ?_, ?_⟩
  · rw [prepareMessages_turns_hasText]
    cases hl : (messages.filter fun m => hasText m && !isSystemTurn m) with
    | nil => simp
    | cons t rest => simp
  · intro h
    apply key
    intro m hm hv
    rw [h m hm] at hv
    exact Bool.noConfusion hv
  · rw [prepareMessages_turns_hasText]
    rfl

/-- C4 (witness). A sequence holding a user turn with empty text, a system turn, an
assistant turn without text and a `null` entry: the result is the one user turn "Hello". -/
theorem prepareMessages_nonempty_fallback_witness :
    (∀ m ∈ textlessTurns, hasText m = true → isSystemTurn m = true) ∧
    (_prepareMessages (.str "You are a helpful AI assistant.") textlessTurns).1 =
      [{ role := .str "user", content := [{ type := "text", text := .str "Hello" }] }] ∧
    (_prepareMessages (.str "You are a helpful AI assistant.") textlessTurns).1 ≠ [] :=
  ⟨by decide,
    (prepareMessages_nonempty_fallback (.str "You are a helpful AI assistant.")
      textlessTurns).2.1 (by decide),
    (prepareMessages_nonempty_fallback (.str "You are a helpful AI assistant.")
      textlessTurns).1⟩

/-- C5. For a sequence with at least one non-system turn with non-empty text, the turn
list returned by `_prepareMessages` is the input with the turns of empty or absent text
and the system turns removed, in the original order, each remaining turn mapped to its
role (kept if `user` or `assistant`, `user` otherwise, an absent role included) and one
text block holding the turn's text unchanged. -/
theorem prepareMessages_turns_filter_map (d : JsVal) (messages : List JsVal)
    (h : ∃ m ∈ messages, hasText m = true ∧ isSystemTurn m = false) :
    (_prepareMessages d messages).1 =
      (messages.filter fun m => hasText m && !isSystemTurn m).map normalizedTurn := by
  obtain ⟨m, hm, hv, hs⟩ := h
  have hmem : m ∈ messages.filter fun m => hasText m && !isSystemTurn m := by
    simp [List.mem_filter, hm, hv, hs]
  rw [prepareMessages_turns_hasText]
  cases hl : (messages.filter fun m => hasText m && !isSystemTurn m) with
  | nil =>
    rw [hl] at hmem
    exact absurd hmem (List.not_mem_nil m)
  | cons t rest => simp

/-- C5 (witness). In a conversation with empty-text, text-less, unknown-role, role-less and
`null` entries, exactly the four non-system turns with text remain, in order, with their
roles kept or coerced to `user`; and the turns `{system, "Be terse"}, {user, "Hi"}`
normalize to the system instruction "Be terse" and the single turn `{user, "Hi"}`. -/
theorem prepareMessages_turns_filter_map_witness :
    (∃ m ∈ mixedTurns, hasText m = true ∧ isSystemTurn m = false) ∧
    (_prepareMessages (.str "You are a helpful AI assistant.") mixedTurns).1 =
      [{ role := .str "user", content := [{ type := "text", text := .str "42" }] },
        { role := .str "user", content := [{ type := "text", text := .str "no role" }] },
        { role := .str "assistant", content := [{ type := "text", text := .str "Hello there" }] },
        { role := .str "user", content := [{ type := "text", text := .str "Hi" }] }] ∧
    (_prepareMessages (.str "You are a helpful AI assistant.")
        [chatTurn "system" "Be terse", chatTurn "user" "Hi"]) =
      ([{ role := .str "user", content := [{ type := "text", text := .str "Hi" }] }],
        .str "Be terse") :=
  ⟨⟨chatTurn "user" "Hi", by simp [mixedTurns], by decide, by decide⟩,
    (prepareMessages_turns_filter_map (.str "You are a helpful AI assistant.") mixedTurns
      ⟨chatTurn "user" "Hi", by simp [mixedTurns], by decide, by decide⟩).trans rfl,
    rfl⟩

/-! ## Credential refresh -/

/-- What `_initializeClient` sends to the Security Token Service when the role identifier
passes the test of line 53: the identity check, then the role assumption. -/
theorem initializeClient_calls_of_assumed (self : BedrockClient) (env : StsEnv)
    (roleArn : String) (hrole : self.crossAccountRoleArn = some roleArn)
    (hdel : useAssumedRole (some roleArn) = true) :
    StsCall.assumeRole roleArn "BedrockExpressSession" 3600 ∈ (_initializeClient self env).stsCalls := by
  unfold _initializeClient
  simp only [hrole, hdel, if_true, assumeRole]
  cases env.assumeRole roleArn <;> simp

/-- C6. For a client in delegated mode (a role identifier that is not blank),
`refreshCredentialsIfNeeded(force)` sends the role-assumption request again if and only if
`force` is true, or no expiry is stored, or the stored expiry is earlier than now plus five
minutes; with `force = false` an expiry four minutes ahead refreshes and an expiry ten
minutes ahead does not. -/
theorem refresh_delegated_iff (self : BedrockClient) (now : Int) (env : StsEnv)
    (forceRefresh : Bool) (roleArn : String)
    (hrole : self.crossAccountRoleArn = some roleArn)
    (hdel : useAssumedRole (some roleArn) = true) :
    (StsCall.assumeRole roleArn "BedrockExpressSession" 3600 ∈
        (refreshCredentialsIfNeeded self now env forceRefresh).stsCalls ↔
      (forceRefresh = true ∨ self.credentialsExpiration = none ∨
        ∃ t, self.credentialsExpiration = some t ∧ t < now + 5 * 60 * 1000)) ∧
    (forceRefresh = false → self.credentialsExpiration = some (now + 4 * 60 * 1000) →
      StsCall.assumeRole roleArn "BedrockExpressSession" 3600 ∈
        (refreshCredentialsIfNeeded self now env forceRefresh).stsCalls) ∧
    (forceRefresh = false → self.credentialsExpiration = some (now + 10 * 60 * 1000) →
      StsCall.assumeRole roleArn "BedrockExpressSession" 3600 ∉
        (refreshCredentialsIfNeeded self now env forceRefresh).stsCalls) := by
  have htruthy : roleTruthy self.crossAccountRoleArn = true := by
    rw [hrole]
    simp only [useAssumedRole, Bool.and_eq_true] at hdel
    exact hdel.1
  have hiff : StsCall.assumeRole roleArn "BedrockExpressSession" 3600 ∈
        (refreshCredentialsIfNeeded self now env forceRefresh).stsCalls ↔
      shouldRefresh self.credentialsExpiration now forceRefresh = true := by
    unfold refreshCredentialsIfNeeded
    rw [htruthy, Bool.true_and]
    by_cases hs : shouldRefresh self.credentialsExpiration now forceRefresh = true
    · rw [if_pos hs]
      exact ⟨fun _ => hs, fun _ =>
        initializeClient_calls_of_assumed { self with initialized := false } env roleArn hrole hdel⟩
    · rw [if_neg hs]
      simp [hs]
  have hshould : shouldRefresh self.credentialsExpiration now forceRefresh = true ↔
      (forceRefresh = true ∨ self.credentialsExpiration = none ∨
        ∃ t, self.credentialsExpiration = some t ∧ t < now + 5 * 60 * 1000) := by
    unfold shouldRefresh
    cases self.credentialsExpiration <;> simp
  refine ⟨hiff.trans hshould, ?_, ?_⟩
  · intro _ hexp
    exact (hiff.trans hshould).mpr (Or.inr (Or.inr ⟨_, hexp, by omega⟩))
  · intro hf hexp hmem
    rcases (hiff.trans hshould).mp hmem with h | h | ⟨t, ht, hlt⟩
    · rw [hf] at h; exact Bool.noConfusion h
    · rw [hexp] at h; exact Option.noConfusion h
    · rw [hexp] at ht
      have : now + 10 * 60 * 1000 = t := Option.some.inj ht
      omega

/-- C6 (witness). At time 0 a delegated client whose credentials expire in four minutes
refreshes, and one whose credentials expire in ten minutes does not. -/
theorem refresh_delegated_iff_witness :
    StsCall.assumeRole "arn:aws:iam::1:role/r" "BedrockExpressSession" 3600 ∈
      (refreshCredentialsIfNeeded (sampleClient (some "arn:aws:iam::1:role/r") (some 240000)) 0
        (sampleSts (some 3600000)) false).stsCalls ∧
    StsCall.assumeRole "arn:aws:iam::1:role/r" "BedrockExpressSession" 3600 ∉
      (refreshCredentialsIfNeeded (sampleClient (some "arn:aws:iam::1:role/r") (some 600000)) 0
        (sampleSts (some 3600000)) false).stsCalls :=
  ⟨(refresh_delegated_iff (sampleClient (some "arn:aws:iam::1:role/r") (some 240000)) 0
      (sampleSts (some 3600000)) false "arn:aws:iam::1:role/r" rfl (by decide)).2.1 rfl rfl,
    (refresh_delegated_iff (sampleClient (some "arn:aws:iam::1:role/r") (some 600000)) 0
      (sampleSts (some 3600000)) false "arn:aws:iam::1:role/r" rfl (by decide)).2.2 rfl rfl⟩

/-- C7. For a client with no delegated role configured (the role identifier is absent or
empty), `refreshCredentialsIfNeeded(force)` does nothing for every `force` and every
stored expiry: it returns normally, sends nothing to the Security Token Service and
leaves every field of the client (`initialized`, `credentialsExpiration`, the inference
client) as it was. -/
theorem refresh_ambient_noop (self : BedrockClient) (now : Int) (env : StsEnv)
    (forceRefresh : Bool)
    (h : self.crossAccountRoleArn = none ∨ self.crossAccountRoleArn = some "") :
    refreshCredentialsIfNeeded self now env forceRefresh =
      { result := .ok (), client := self, stsCalls := [], diagnostics := [] } := by
  have hfalsy : roleTruthy self.crossAccountRoleArn = false := by
    rcases h with h | h <;> rw [h] <;> rfl
  unfold refreshCredentialsIfNeeded
  simp [hfalsy]

/-- C7 (witness). An ambient client with an expiry long past, asked to force a refresh. -/
theorem refresh_ambient_noop_witness :
    refreshCredentialsIfNeeded (sampleClient none (some 0)) 1000000 (sampleSts none) true =
      { result := .ok (), client := sampleClient none (some 0), stsCalls := [], diagnostics := [] } :=
  refresh_ambient_noop (sampleClient none (some 0)) 1000000 (sampleSts none) true (Or.inl rfl)

/-! ## Stream decoding -/

theorem truthy_of_member_truthy (v : JsVal) (key : String)
    (h : (v.member key).truthy = true) : v.truthy = true := by
  cases v <;> simp_all [JsVal.member, JsVal.truthy]

theorem asText_of_not_truthy (v : JsVal) (h : v.truthy = false) : asText v = "" := by
  cases v <;> simp_all [JsVal.truthy, asText]

/-- On a well-formed frame the loop body does not throw, and calls the sink exactly with
the text fragment the frame carries. -/
theorem processEvent_of_wellFormed (event : Event) (h : wellFormedFrame event = true) :
    processEvent event = .ok (deltaText event) := by
  obtain ⟨chunk⟩ := event
  cases chunk with
  | none => rfl
  | some chunk =>
    obtain ⟨bytes⟩ := chunk
    cases bytes with
    | none => rfl
    | some payload =>
      cases payload with
      | malformed => simp [wellFormedFrame] at h
      | json parsed =>
        have hget : parsed.getProp "type" = .ok (parsed.member "type") := by
          cases parsed <;> first | rfl | simp [wellFormedFrame] at h
        simp only [processEvent, deltaText, hget]
        by_cases ht : ((parsed.member "delta").member "text").truthy = true
        · simp only [ht, truthy_of_member_truthy _ _ ht, Bool.and_true]
          split <;> rfl
        · simp [ht]

theorem processEvent_malformed : processEvent malformedFrame = .error .syntaxError := rfl

/-- The loop over well-formed frames runs to the end and appends their text fragments. -/
theorem consumeEvents_of_wellFormed (events : List Event) (sink : List JsVal)
    (h : ∀ e ∈ events, wellFormedFrame e = true) :
    consumeEvents events sink = (none, sink ++ events.filterMap deltaText) := by
  induction events generalizing sink with
  | nil => simp [consumeEvents]
  | cons e rest ih =>
    have he := processEvent_of_wellFormed e (h e (List.mem_cons_self _ _))
    have hrest : ∀ x ∈ rest, wellFormedFrame x = true :=
      fun x hx => h x (List.mem_cons_of_mem _ hx)
    unfold consumeEvents
    rw [he]
    cases hd : deltaText e with
    | none => simp [ih sink hrest, List.filterMap_cons, hd]
    | some t => simp [ih (sink ++ [t]) hrest, List.filterMap_cons, hd]

/-- The loop leaves at the first malformed frame, with the sink calls of the frames
before it. -/
theorem consumeEvents_malformed (before after : List Event) (sink : List JsVal)
    (h : ∀ e ∈ before, wellFormedFrame e = true) :
    consumeEvents (before ++ malformedFrame :: after) sink =
      (some .syntaxError, sink ++ before.filterMap deltaText) := by
  induction before generalizing sink with
  | nil => simp [consumeEvents, processEvent_malformed]
  | cons e rest ih =>
    have he := processEvent_of_wellFormed e (h e (List.mem_cons_self _ _))
    have hrest : ∀ x ∈ rest, wellFormedFrame x = true :=
      fun x hx => h x (List.mem_cons_of_mem _ hx)
    rw [List.cons_append]
    unfold consumeEvents
    rw [he]
    cases hd : deltaText e with
    | none => simp [ih sink hrest, List.filterMap_cons, hd]
    | some t => simp [ih (sink ++ [t]) hrest, List.filterMap_cons, hd]

/-- Concatenating the sink calls gives the concatenation of the delta texts of all
frames, empty fragments included. -/
theorem concatText_filterMap_deltaText (events : List Event) :
    concatText ((events.filterMap deltaText).map asText) =
      concatText (events.map rawDeltaString) := by
  induction events with
  | nil => rfl
  | cons e rest ih =>
    obtain ⟨chunk⟩ := e
    cases chunk with
    | none => simpa [deltaText, rawDeltaString, concatText] using ih
    | some chunk =>
      obtain ⟨bytes⟩ := chunk
      cases bytes with
      | none => simpa [deltaText, rawDeltaString, concatText] using ih
      | some payload =>
        cases payload with
        | malformed => simpa [deltaText, rawDeltaString, concatText] using ih
        | json parsed =>
          by_cases hty : (parsed.member "type").strictEq "content_block_delta" = true
          · by_cases ht : ((parsed.member "delta").member "text").truthy = true
            · simp [deltaText, rawDeltaString, concatText, hty, ht, ih, List.filterMap_cons]
            · have ht2 : ((parsed.member "delta").member "text").truthy = false := by
                simpa using ht
              simp [deltaText, rawDeltaString, concatText, hty, ht2, ih, List.filterMap_cons,
                asText_of_not_truthy _ ht2]
          · simpa [deltaText, rawDeltaString, concatText, hty, List.filterMap_cons] using ih

/-- C2. When the transport delivers well-formed frames only and then closes,
`generateStreamingResponse` returns normally and its sink calls are, in order, the text
fragments of exactly the frames whose payload type is `content_block_delta` and that
carry a text fragment; every other frame adds no call and does not stop decoding, and
the concatenation of the sink calls is the concatenation of the delta texts. -/
theorem streaming_sink_of_wellFormed (self : BedrockClient) (w : World) (messages : JsVal)
    (events : List Event)
    (hc : (createChatCompletion self w messages true).result =
      .ok (.stream { body := some { events := events, failure := none } }))
    (hw : ∀ e ∈ events, wellFormedFrame e = true) :
    (generateStreamingResponse self w messages).result = .ok true ∧
    (generateStreamingResponse self w messages).sink = events.filterMap deltaText ∧
    concatText ((generateStreamingResponse self w messages).sink.map asText) =
      concatText (events.map rawDeltaString) := by
  have hsink : (generateStreamingResponse self w messages).sink = events.filterMap deltaText := by
    unfold generateStreamingResponse
    simp only [hc, consumeStream, consumeEvents_of_wellFormed events [] hw]
    rfl
  refine ⟨?_, hsink, ?_⟩
  · unfold generateStreamingResponse
    simp only [hc, consumeStream, consumeEvents_of_wellFormed events [] hw]
  · rw [hsink]
    exact concatText_filterMap_deltaText events

/-- C2 (witness). The frames "Hel", "lo", "!" among frames of other kinds give three sink
calls in that order, concatenating to "Hello!". -/
theorem streaming_sink_of_wellFormed_witness :
    (∀ e ∈ helloFrames, wellFormedFrame e = true) ∧
    (generateStreamingResponse (sampleClient none none)
      (stubWorld .null helloFrames none) hiMessages).result = .ok true ∧
    (generateStreamingResponse (sampleClient none none)
      (stubWorld .null helloFrames none) hiMessages).sink = [.str "Hel", .str "lo", .str "!"] ∧
    concatText ((generateStreamingResponse (sampleClient none none)
      (stubWorld .null helloFrames none) hiMessages).sink.map asText) = "Hello!" :=
  have h := streaming_sink_of_wellFormed (sampleClient none none)
    (stubWorld .null helloFrames none) hiMessages helloFrames rfl (by decide)
  ⟨by decide, h.1, h.2.1.trans rfl, h.2.2.trans (by decide)⟩

/-- C1 (as amended). A malformed frame stops the decoding: `generateStreamingResponse`
throws the parse error, the sink has been called with exactly the text fragments of the
well-formed content-delta frames delivered before the first malformed frame, in order,
and no call is made for the frames after it. -/
theorem streaming_malformed_aborts (self : BedrockClient) (w : World) (messages : JsVal)
    (before after : List Event) (failure : Option JsError)
    (hc : (createChatCompletion self w messages true).result =
      .ok (.stream { body := some { events := before ++ malformedFrame :: after,
                                    failure := failure } }))
    (hw : ∀ e ∈ before, wellFormedFrame e = true) :
    (generateStreamingResponse self w messages).result = .error .syntaxError ∧
    (generateStreamingResponse self w messages).sink = before.filterMap deltaText := by
  constructor
  · unfold generateStreamingResponse
    simp only [hc, consumeStream, consumeEvents_malformed before after [] hw]
  · unfold generateStreamingResponse
    simp only [hc, consumeStream, consumeEvents_malformed before after [] hw]
    rfl

/-- C1 (witness). Frames `a`, malformed, `b`: the parse error is thrown after the single
sink call `a`. -/
theorem streaming_malformed_aborts_witness :
    (generateStreamingResponse (sampleClient none none)
      (stubWorld .null framesWithMalformed none) hiMessages).result = .error .syntaxError ∧
    (generateStreamingResponse (sampleClient none none)
      (stubWorld .null framesWithMalformed none) hiMessages).sink = [.str "a"] :=
  have h := streaming_malformed_aborts (sampleClient none none)
    (stubWorld .null framesWithMalformed none) hiMessages [deltaFrame "a"] [deltaFrame "b"] none
    rfl (by decide)
  ⟨h.1, h.2.trans rfl⟩

/-- C1 (counterexample). With one malformed frame between the content-delta frames `a`
and `b`, `generateStreamingResponse` does not return normally and the sink calls are not
`a`, `b`: the fragment `b` is lost. -/
theorem streaming_malformed_counterexample :
    (generateStreamingResponse (sampleClient none none)
        (stubWorld .null framesWithMalformed none) hiMessages).result ≠ .ok true ∧
    (generateStreamingResponse (sampleClient none none)
        (stubWorld .null framesWithMalformed none) hiMessages).sink ≠ [.str "a", .str "b"] := by
  have hres : (generateStreamingResponse (sampleClient none none)
      (stubWorld .null framesWithMalformed none) hiMessages).result = .error .syntaxError := rfl
  have hsink : (generateStreamingResponse (sampleClient none none)
      (stubWorld .null framesWithMalformed none) hiMessages).sink = [.str "a"] := rfl
  rw [hres, hsink]
  constructor <;> simp

/-! ## Blocking responses -/

/-- The shape test of `generateResponse` succeeds exactly on a reply whose `content` is a
non-empty list with a first block that can be read. -/
theorem extractText_eq_ok_iff (response v : JsVal) :
    extractText response = .ok v ↔
      ∃ first rest, response.member "content" = .arr (first :: rest) ∧
        first.getProp "text" = .ok v := by
  unfold extractText
  cases hc : response.member "content" with
  | arr items =>
    have htr : response.truthy = true := truthy_of_member_truthy response "content" (by rw [hc]; rfl)
    rw [htr]
    cases items with
    | nil => simp
    | cons first rest => simp [show (JsVal.arr (first :: rest)).truthy = true from rfl]
  | undefined => simp [JsVal.truthy]
  | null => simp [JsVal.truthy]
  | bool b => simp
  | num n => simp
  | str t => simp
  | obj fields => simp

/-- Result of `generateResponse` when `createChatCompletion` returned a value. -/
theorem generateResponse_result_of_ok (self : BedrockClient) (w : World) (messages : JsVal)
    (completion : Completion)
    (h : (createChatCompletion self w messages false).result = .ok completion) :
    (generateResponse self w messages).result = extractText completion.toJs := by
  simp only [generateResponse, h]

/-- Result of `generateResponse` when `createChatCompletion` threw. -/
theorem generateResponse_result_of_error (self : BedrockClient) (w : World) (messages : JsVal)
    (e : JsError) (h : (createChatCompletion self w messages false).result = .error e) :
    (generateResponse self w messages).result = .error e := by
  simp only [generateResponse, h]

/-- A reply that lacks the content field fails the shape test. -/
theorem extractText_of_lacksContent (response : JsVal) (h : lacksContent response = true) :
    extractText response = .error (.error "Unexpected response format from Bedrock") := by
  unfold extractText
  unfold lacksContent at h
  cases hc : response.member "content" with
  | arr items =>
    cases items with
    | nil => simp
    | cons first rest => simp [hc] at h
  | undefined => simp
  | null => simp
  | bool b => simp
  | num n => simp
  | str t => simp
  | obj fields => simp

/-- When `generateResponse` returns: it returns a value exactly when the provider reply has
a non-empty `content` list whose first block can be read, and the value returned is the
`text` member of that first block: the block's text when it carries one (a string for a
text block), `undefined` when it has no `text` member. -/
theorem generateResponse_ok_iff (self : BedrockClient) (w : World) (messages v : JsVal) :
    (generateResponse self w messages).result = .ok v ↔
      ∃ response first rest,
        (createChatCompletion self w messages false).result = .ok (.body response) ∧
        response.member "content" = .arr (first :: rest) ∧
        first.getProp "text" = .ok v := by
  cases hr : (createChatCompletion self w messages false).result with
  | error e =>
    rw [generateResponse_result_of_error self w messages e hr]
    constructor
    · intro h
      exact Except.noConfusion h
    · rintro ⟨_, _, _, h0, _, _⟩
      exact Except.noConfusion h0
  | ok completion =>
    rw [generateResponse_result_of_ok self w messages completion hr, extractText_eq_ok_iff]
    cases completion with
    | body response =>
      constructor
      · rintro ⟨first, rest, h1, h2⟩
        exact ⟨response, first, rest, rfl, h1, h2⟩
      · rintro ⟨response2, first, rest, h0, h1, h2⟩
        have h3 : response = response2 := by
          injection h0 with h0
          injection h0
        subst h3
        exact ⟨first, rest, h1, h2⟩
    | stream streamResponse =>
      constructor
      · rintro ⟨first, rest, h1, _⟩
        simp [Completion.toJs, JsVal.member] at h1
      · rintro ⟨response2, first, rest, h0, _, _⟩
        injection h0 with h0
        exact Completion.noConfusion h0

/-- Example of a text reply: a stub provider replying with the content block "Hello" makes
`generateResponse` return exactly "Hello". -/
theorem generateResponse_ok_iff_witness :
    (generateResponse (sampleClient none none)
      (stubWorld (replyWith [textBlock "Hello"]) [] none) hiMessages).result = .ok (.str "Hello") :=
  (generateResponse_ok_iff (sampleClient none none)
    (stubWorld (replyWith [textBlock "Hello"]) [] none) hiMessages (.str "Hello")).mpr
    ⟨replyWith [textBlock "Hello"], textBlock "Hello", [], rfl, rfl, rfl⟩

/-- C8 (failing input). A provider reply whose first content block has no `text` member
(`{content: [{type: 'tool_use'}]}`) passes the shape test of line 298 and makes
`generateResponse` return `undefined` without failing, where its documentation promises
a string. -/
theorem generateResponse_returns_undefined :
    (generateResponse (sampleClient none none)
      (stubWorld (replyWith [.obj [("type", .str "tool_use")]]) [] none) hiMessages).result =
        .ok .undefined ∧
    ¬ ∃ text : String, (generateResponse (sampleClient none none)
      (stubWorld (replyWith [.obj [("type", .str "tool_use")]]) [] none) hiMessages).result =
        .ok (.str text) := by
  have hres : (generateResponse (sampleClient none none)
      (stubWorld (replyWith [.obj [("type", .str "tool_use")]]) [] none) hiMessages).result =
        .ok .undefined := rfl
  refine ⟨hres, ?_⟩
  rintro ⟨text, h⟩
  rw [hres] at h
  simp at h

/-- C9. For every provider reply that lacks the expected content field (`content` absent,
not a list, or an empty list), `generateResponse` fails with the error
"Unexpected response format from Bedrock" and returns no value. -/
theorem generateResponse_unexpected_format (self : BedrockClient) (w : World)
    (messages response : JsVal)
    (hr : (createChatCompletion self w messages false).result = .ok (.body response))
    (hl : lacksContent response = true) :
    (generateResponse self w messages).result =
      .error (.error "Unexpected response format from Bedrock") := by
  rw [generateResponse_result_of_ok self w messages (.body response) hr]
  exact extractText_of_lacksContent response hl

/-- C9 (witness). Replies without `content`, with a `content` that is not a list, and with
an empty `content` list all fail with the unexpected-format error. -/
theorem generateResponse_unexpected_format_witness :
    (generateResponse (sampleClient none none) (stubWorld (.obj []) [] none) hiMessages).result =
      .error (.error "Unexpected response format from Bedrock") ∧
    (generateResponse (sampleClient none none)
      (stubWorld (.obj [("content", .str "Hello")]) [] none) hiMessages).result =
      .error (.error "Unexpected response format from Bedrock") ∧
    (generateResponse (sampleClient none none) (stubWorld (replyWith []) [] none) hiMessages).result =
      .error (.error "Unexpected response format from Bedrock") :=
  ⟨generateResponse_unexpected_format (sampleClient none none) (stubWorld (.obj []) [] none)
      hiMessages (.obj []) rfl rfl,
    generateResponse_unexpected_format (sampleClient none none)
      (stubWorld (.obj [("content", .str "Hello")]) [] none) hiMessages
      (.obj [("content", .str "Hello")]) rfl rfl,
    generateResponse_unexpected_format (sampleClient none none) (stubWorld (replyWith []) [] none)
      hiMessages (replyWith []) rfl rfl⟩

/-! ## Input validation of `createChatCompletion` -/

theorem invalidMessages_eq_false_iff (messages : JsVal) :
    invalidMessages messages = false ↔ ∃ first rest, messages = .arr (first :: rest) := by
  cases messages with
  | arr items => cases items <;> simp [invalidMessages, JsVal.isArray, arrayItems]
  | undefined => simp [invalidMessages, JsVal.isArray]
  | null => simp [invalidMessages, JsVal.isArray]
  | bool b => simp [invalidMessages, JsVal.isArray]
  | num n => simp [invalidMessages, JsVal.isArray]
  | str t => simp [invalidMessages, JsVal.isArray]
  | obj fields => simp [invalidMessages, JsVal.isArray]

/-- C10 (as amended). Once the readiness steps have succeeded, `createChatCompletion`
stops with the error "Messages must be a non-empty array", before any request is sent,
exactly when the raw `messages` argument is not an array or is an empty array; the test
is made on the input before normalization, so every non-empty array passes it whatever
its turns normalize to. -/
theorem createChatCompletion_validation_iff (self : BedrockClient) (w : World)
    (messages : JsVal) (stream : Bool)
    (hready : (readinessSteps self w).result = .ok ()) :
    ((createChatCompletion self w messages stream).result =
        .error (.error "Messages must be a non-empty array") ∧
      (createChatCompletion self w messages stream).sent = []) ↔
    ¬ ∃ first rest, messages = .arr (first :: rest) := by
  rw [← invalidMessages_eq_false_iff]
  cases hinv : invalidMessages messages with
  | true =>
    simp only [createChatCompletion, hready, hinv, if_true]
    simp
  | false =>
    cases hb : (readinessSteps self w).client.bedrockClient with
    | none =>
      simp only [createChatCompletion, hready, hinv, hb]
      simp
    | some bedrockClient =>
      simp only [createChatCompletion, hready, hinv, hb]
      simp

/-- C10 (witness). A ready client given the non-empty array `[{user, ""}]`, whose only turn
has empty text: the validation error is not raised. -/
theorem createChatCompletion_validation_iff_witness :
    (readinessSteps (sampleClient none none) (stubWorld (replyWith [textBlock "Hello"]) [] none)).result
      = .ok () ∧
    ¬ ((createChatCompletion (sampleClient none none)
          (stubWorld (replyWith [textBlock "Hello"]) [] none) (.arr [chatTurn "user" ""]) false).result =
          .error (.error "Messages must be a non-empty array") ∧
        (createChatCompletion (sampleClient none none)
          (stubWorld (replyWith [textBlock "Hello"]) [] none) (.arr [chatTurn "user" ""]) false).sent
          = []) :=
  ⟨rfl, fun h =>
    (createChatCompletion_validation_iff (sampleClient none none)
      (stubWorld (replyWith [textBlock "Hello"]) [] none) (.arr [chatTurn "user" ""]) false rfl).mp h
      ⟨chatTurn "user" "", [], rfl⟩⟩

/-- C10 (counterexample). The empty array is normalized by `_prepareMessages` to a non-empty
turn list (the fallback turn), yet `createChatCompletion` fails on it with the
empty-conversation error, in both streaming modes. -/
theorem createChatCompletion_empty_array_counterexample :
    (_prepareMessages (sampleClient none none).defaultSystemMessage []).1 = [helloMessage] ∧
    (_prepareMessages (sampleClient none none).defaultSystemMessage []).1 ≠ [] ∧
    (createChatCompletion (sampleClient none none)
      (stubWorld (replyWith [textBlock "Hello"]) [] none) (.arr []) false).result =
        .error (.error "Messages must be a non-empty array") ∧
    (createChatCompletion (sampleClient none none)
      (stubWorld (replyWith [textBlock "Hello"]) [] none) (.arr []) true).result =
        .error (.error "Messages must be a non-empty array") := by
  refine ⟨rfl, ?_, rfl, rfl⟩
  rw [show (_prepareMessages (sampleClient none none).defaultSystemMessage []).1 = [helloMessage]
    from rfl]
  simp

/-! ## Return kinds of `createChatCompletion` -/

/-- With `stream = false` the value returned is a parsed response body, never a stream. -/
theorem createChatCompletion_blocking_returns_body (self : BedrockClient) (w : World)
    (messages : JsVal) (streamResponse : StreamResponse) :
    (createChatCompletion self w messages false).result ≠ .ok (.stream streamResponse) := by
  intro h
  cases hr : (readinessSteps self w).result with
  | error e => simp [createChatCompletion, hr] at h
  | ok u =>
    cases hinv : invalidMessages messages with
    | true => simp [createChatCompletion, hr, hinv] at h
    | false =>
      cases hb : (readinessSteps self w).client.bedrockClient with
      | none => simp [createChatCompletion, hr, hinv, hb] at h
      | some bedrockClient =>
        simp only [createChatCompletion, hr, hinv, hb, Bool.false_eq_true, if_false,
          Bool.not_false, Bool.not_true, if_true] at h
        split at h <;> simp at h

/-- With `stream = true` the value returned is a stream response, never a parsed body. -/
theorem createChatCompletion_streaming_returns_stream (self : BedrockClient) (w : World)
    (messages : JsVal) (responseBody : JsVal) :
    (createChatCompletion self w messages true).result ≠ .ok (.body responseBody) := by
  intro h
  cases hr : (readinessSteps self w).result with
  | error e => simp [createChatCompletion, hr] at h
  | ok u =>
    cases hinv : invalidMessages messages with
    | true => simp [createChatCompletion, hr, hinv] at h
    | false =>
      cases hb : (readinessSteps self w).client.bedrockClient with
      | none => simp [createChatCompletion, hr, hinv, hb] at h
      | some bedrockClient =>
        simp only [createChatCompletion, hr, hinv, hb, Bool.false_eq_true, if_false,
          Bool.not_false, Bool.not_true, if_true] at h
        split at h <;> simp at h

/-! ## Transport failures -/

/-- C11. When the transport reports a failure after the frames `events` have been
delivered and decoded, `generateStreamingResponse` fails with exactly that transport
error; the sink calls made, all of them before the failure, are exactly the text deltas
of those frames, in order. -/
theorem streaming_transport_failure (self : BedrockClient) (w : World) (messages : JsVal)
    (events : List Event) (e : JsError)
    (hc : (createChatCompletion self w messages true).result =
      .ok (.stream { body := some { events := events, failure := some e } }))
    (hw : ∀ f ∈ events, wellFormedFrame f = true) :
    (generateStreamingResponse self w messages).result = .error e ∧
    (generateStreamingResponse self w messages).sink = events.filterMap deltaText := by
  constructor
  · unfold generateStreamingResponse
    simp only [hc, consumeStream, consumeEvents_of_wellFormed events [] hw]
  · unfold generateStreamingResponse
    simp only [hc, consumeStream, consumeEvents_of_wellFormed events [] hw]
    rfl

/-- C11 (witness). The transport fails with status 500 after the frames "Hel", "lo", "!":
the call fails with that error after the three sink calls. -/
theorem streaming_transport_failure_witness :
    (generateStreamingResponse (sampleClient none none)
      (stubWorld .null helloFrames (some (.upstream 500 "req-7"))) hiMessages).result =
        .error (.upstream 500 "req-7") ∧
    (generateStreamingResponse (sampleClient none none)
      (stubWorld .null helloFrames (some (.upstream 500 "req-7"))) hiMessages).sink =
        [.str "Hel", .str "lo", .str "!"] :=
  have h := streaming_transport_failure (sampleClient none none)
    (stubWorld .null helloFrames (some (.upstream 500 "req-7"))) hiMessages helloFrames
    (.upstream 500 "req-7") rfl (by decide)
  ⟨h.1, h.2.trans rfl⟩

/-- What `createChatCompletion` returns once it has sent a command: one command was sent,
and the result is the provider's answer to it, an error being passed on as it is. -/
theorem createChatCompletion_of_sent (self : BedrockClient) (w : World) (messages : JsVal)
    (stream : Bool) (command : InvokeCommand)
    (h : command ∈ (createChatCompletion self w messages stream).sent) :
    (createChatCompletion self w messages stream).sent = [command] ∧
    (createChatCompletion self w messages stream).result =
      if !stream then
        match w.invokeModel command with
        | .ok responseBody => .ok (.body responseBody)
        | .error e => .error e
      else
        match w.invokeModelWithResponseStream command with
        | .ok streamResponse => .ok (.stream streamResponse)
        | .error e => .error e := by
  cases hr : (readinessSteps self w).result with
  | error e => simp [createChatCompletion, hr] at h
  | ok u =>
    cases hinv : invalidMessages messages with
    | true => simp [createChatCompletion, hr, hinv] at h
    | false =>
      cases hb : (readinessSteps self w).client.bedrockClient with
      | none => simp [createChatCompletion, hr, hinv, hb] at h
      | some bedrockClient =>
        simp only [createChatCompletion, hr, hinv, hb, Bool.false_eq_true, if_false,
          List.mem_singleton] at h
        subst h
        simp only [createChatCompletion, hr, hinv, hb, Bool.false_eq_true, if_false]
        exact ⟨trivial, trivial⟩

/-- Result of `generateStreamingResponse` when `createChatCompletion` threw. -/
theorem generateStreamingResponse_of_error (self : BedrockClient) (w : World) (messages : JsVal)
    (e : JsError) (h : (createChatCompletion self w messages true).result = .error e) :
    (generateStreamingResponse self w messages).result = .error e ∧
    (generateStreamingResponse self w messages).sink = [] := by
  constructor <;> simp only [generateStreamingResponse, h]

/-- C15. A failure `e` raised by the inference call is the failure of
`createChatCompletion`, of `generateResponse` and of `generateStreamingResponse`: the
same error value (status code and request id included), after a single send, in both
the blocking and the streaming mode. -/
theorem inference_failure_propagates (self : BedrockClient) (w : World) (messages : JsVal)
    (command : InvokeCommand) (e : JsError) :
    (command ∈ (createChatCompletion self w messages false).sent →
      w.invokeModel command = .error e →
        (createChatCompletion self w messages false).result = .error e ∧
        (createChatCompletion self w messages false).sent = [command] ∧
        (generateResponse self w messages).result = .error e ∧
        (generateResponse self w messages).sent = [command]) ∧
    (command ∈ (createChatCompletion self w messages true).sent →
      w.invokeModelWithResponseStream command = .error e →
        (createChatCompletion self w messages true).result = .error e ∧
        (createChatCompletion self w messages true).sent = [command] ∧
        (generateStreamingResponse self w messages).result = .error e ∧
        (generateStreamingResponse self w messages).sink = [] ∧
        (generateStreamingResponse self w messages).sent = [command]) := by
  constructor
  · intro hsent hfail
    obtain ⟨h1, h2⟩ := createChatCompletion_of_sent self w messages false command hsent
    have hres : (createChatCompletion self w messages false).result = .error e := by
      rw [h2]
      simp [hfail]
    refine ⟨hres, h1, generateResponse_result_of_error self w messages e hres, ?_⟩
    simp only [generateResponse, hres, h1]
  · intro hsent hfail
    obtain ⟨h1, h2⟩ := createChatCompletion_of_sent self w messages true command hsent
    have hres : (createChatCompletion self w messages true).result = .error e := by
      rw [h2]
      simp [hfail]
    obtain ⟨h3, h4⟩ := generateStreamingResponse_of_error self w messages e hres
    refine ⟨hres, h1, h3, h4, ?_⟩
    simp only [generateStreamingResponse, hres, h1]

/-- C15 (witness). A provider failing with status 429 and request id "req-9": all three
functions fail with that very error, after one send. -/
theorem inference_failure_propagates_witness :
    (createChatCompletion (sampleClient none none) (failingWorld (.upstream 429 "req-9"))
      hiMessages false).result = .error (.upstream 429 "req-9") ∧
    (generateResponse (sampleClient none none) (failingWorld (.upstream 429 "req-9"))
      hiMessages).result = .error (.upstream 429 "req-9") ∧
    (generateResponse (sampleClient none none) (failingWorld (.upstream 429 "req-9"))
      hiMessages).sent = [hiCommand false] ∧
    (generateStreamingResponse (sampleClient none none) (failingWorld (.upstream 429 "req-9"))
      hiMessages).result = .error (.upstream 429 "req-9") ∧
    (generateStreamingResponse (sampleClient none none) (failingWorld (.upstream 429 "req-9"))
      hiMessages).sent = [hiCommand true] :=
  have h := inference_failure_propagates (sampleClient none none)
    (failingWorld (.upstream 429 "req-9")) hiMessages
  have hb := (h (hiCommand false) (.upstream 429 "req-9")).1 (List.mem_singleton.mpr rfl) rfl
  have hs := (h (hiCommand true) (.upstream 429 "req-9")).2 (List.mem_singleton.mpr rfl) rfl
  ⟨hb.1, hb.2.2.1, hb.2.2.2, hs.2.2.1, hs.2.2.2.2⟩

/-! ## Readiness and identity checks -/

/-- C14. For a client that is initialized and whose credentials are not near expiry (no
role configured, or a stored expiry at least five minutes after now), the readiness steps
of `createChatCompletion` return normally, send nothing to the Security Token Service and
leave every field of the client unchanged; running them a second time has the same
effect as running them once. -/
theorem readiness_idempotent (self : BedrockClient) (w : World)
    (hinit : self.initialized = true)
    (hfresh : (self.crossAccountRoleArn = none ∨ self.crossAccountRoleArn = some "") ∨
      ∃ t, self.credentialsExpiration = some t ∧ w.now + 5 * 60 * 1000 ≤ t) :
    readinessSteps self w =
      { result := .ok (), client := self, stsCalls := [], diagnostics := [] } ∧
    readinessSteps (readinessSteps self w).client w = readinessSteps self w := by
  have hnoop : refreshCredentialsIfNeeded self w.now w.sts false =
      { result := .ok (), client := self, stsCalls := [], diagnostics := [] } := by
    unfold refreshCredentialsIfNeeded
    rcases hfresh with (h | h) | ⟨t, ht, hle⟩
    · simp [h, roleTruthy]
    · simp [h, roleTruthy]
    · have hs : shouldRefresh self.credentialsExpiration w.now false = false := by
        rw [ht]
        simp only [shouldRefresh, Bool.false_or, decide_eq_false_iff_not, not_lt]
        exact hle
      simp [hs]
  have hone : readinessSteps self w =
      { result := .ok (), client := self, stsCalls := [], diagnostics := [] } := by
    unfold readinessSteps
    simp only [hinit, Bool.not_true, Bool.false_eq_true, if_false]
    exact hnoop
  refine ⟨hone, ?_⟩
  rw [hone]
  exact hone

/-- C14 (witness). A delegated client whose credentials expire in ten minutes, and an
ambient client: the readiness steps change nothing and send nothing. -/
theorem readiness_idempotent_witness :
    readinessSteps (sampleClient (some "arn:aws:iam::1:role/r") (some 600000))
        (stubWorld .null [] none) =
      { result := .ok (), client := sampleClient (some "arn:aws:iam::1:role/r") (some 600000),
        stsCalls := [], diagnostics := [] } ∧
    readinessSteps (sampleClient none none) (stubWorld .null [] none) =
      { result := .ok (), client := sampleClient none none, stsCalls := [], diagnostics := [] } :=
  ⟨(readiness_idempotent (sampleClient (some "arn:aws:iam::1:role/r") (some 600000))
      (stubWorld .null [] none) rfl (Or.inr ⟨600000, rfl, by decide⟩)).1,
    (readiness_idempotent (sampleClient none none) (stubWorld .null [] none) rfl
      (Or.inl (Or.inl rfl))).1⟩

/-- C17. The outcome of the two identity checks does not influence `_initializeClient`:
whatever the initial check and the verification check answer, initialization ends the
same way (same return or same error), with the same client fields (`initialized`,
`credentialsExpiration`, inference client and its credentials) and the same requests
sent to the Security Token Service. -/
theorem identity_checks_not_fatal (self : BedrockClient) (env : StsEnv)
    (identity : Except JsError Unit) (verify : Credentials → Except JsError Unit) :
    (_initializeClient self
        { env with getCallerIdentity := identity, verifyIdentity := verify }).result =
      (_initializeClient self env).result ∧
    (_initializeClient self
        { env with getCallerIdentity := identity, verifyIdentity := verify }).client =
      (_initializeClient self env).client ∧
    (_initializeClient self
        { env with getCallerIdentity := identity, verifyIdentity := verify }).stsCalls =
      (_initializeClient self env).stsCalls := by
  unfold _initializeClient
  cases hrole : self.crossAccountRoleArn with
  | none => exact ⟨rfl, rfl, rfl⟩
  | some roleArn =>
    by_cases hdel : useAssumedRole (some roleArn) = true
    · simp only [hdel, if_true, assumeRole]
      cases env.assumeRole roleArn with
      | error e => exact ⟨rfl, rfl, rfl⟩
      | ok credentials => exact ⟨rfl, rfl, rfl⟩
    · simp only [hdel, if_false]
      exact ⟨rfl, rfl, rfl⟩

/-- C17 (witness). On a delegated client both identity checks fail: initialization ends as
with successful checks, only the logged diagnostics differ. -/
theorem identity_checks_not_fatal_witness :
    (_initializeClient (sampleClient (some "arn:aws:iam::1:role/r") none)
        (identityFailingSts (some 3600000))).result = .ok () ∧
    (_initializeClient (sampleClient (some "arn:aws:iam::1:role/r") none)
        (identityFailingSts (some 3600000))).client =
      (_initializeClient (sampleClient (some "arn:aws:iam::1:role/r") none)
        (sampleSts (some 3600000))).client ∧
    (_initializeClient (sampleClient (some "arn:aws:iam::1:role/r") none)
        (identityFailingSts (some 3600000))).diagnostics =
      [.identityCheckFailed (.upstream 403 "id-1"), .verifyFailed (.upstream 403 "id-2")] :=
  have h := identity_checks_not_fatal (sampleClient (some "arn:aws:iam::1:role/r") none)
    (sampleSts (some 3600000)) (.error (.upstream 403 "id-1"))
    (fun _ => .error (.upstream 403 "id-2"))
  ⟨h.1.trans rfl, h.2.1, rfl⟩

/-! ## Readiness after failures -/

/-- Neither `_initializeClient` nor a refresh writes `initializationPromise`. -/
theorem initializeClient_promise (self : BedrockClient) (env : StsEnv) :
    (_initializeClient self env).client.initializationPromise = self.initializationPromise := by
  unfold _initializeClient
  cases self.crossAccountRoleArn with
  | none => rfl
  | some roleArn =>
    by_cases hdel : useAssumedRole (some roleArn) = true
    · simp only [hdel, if_true, assumeRole]
      cases env.assumeRole roleArn <;> rfl
    · simp [hdel]

/-- A failed `_initializeClient` leaves every field as it was. -/
theorem initializeClient_client_of_error (self : BedrockClient) (env : StsEnv) (e : JsError)
    (h : (_initializeClient self env).result = .error e) :
    (_initializeClient self env).client = self := by
  unfold _initializeClient at h ⊢
  cases hrole : self.crossAccountRoleArn with
  | none => simp [hrole] at h
  | some roleArn =>
    by_cases hdel : useAssumedRole (some roleArn) = true
    · simp only [hrole, hdel, if_true, assumeRole] at h ⊢
      cases ha : env.assumeRole roleArn with
      | error e2 => simp [ha]
      | ok credentials => simp [ha] at h
    · simp [hrole, hdel] at h

/-- A failed refresh leaves the client not initialized, with its other fields as they were. -/
theorem refresh_client_of_error (self : BedrockClient) (now : Int) (env : StsEnv)
    (forceRefresh : Bool) (e : JsError)
    (h : (refreshCredentialsIfNeeded self now env forceRefresh).result = .error e) :
    (refreshCredentialsIfNeeded self now env forceRefresh).client =
      { self with initialized := false } := by
  unfold refreshCredentialsIfNeeded at h ⊢
  split at h
  · next hc =>
    rw [if_pos hc]
    exact initializeClient_client_of_error _ env e h
  · exact Except.noConfusion h

/-- A client whose first initialization failed with `e` and that has not been initialized
since: every `createChatCompletion` stops at the rejected promise. -/
theorem createChatCompletion_of_unready (self : BedrockClient) (w : World) (messages : JsVal)
    (stream : Bool) (e : JsError) (hinit : self.initialized = false)
    (hpromise : self.initializationPromise = .error e) :
    createChatCompletion self w messages stream =
      { result := .error e, client := self, stsCalls := [], sent := [] } := by
  have hready : readinessSteps self w =
      { result := .error e, client := self, stsCalls := [], diagnostics := [] } := by
    unfold readinessSteps
    simp [hinit, hpromise]
  simp only [createChatCompletion, hready]

/-- A constructor whose initialization failed leaves the client un-ready. -/
theorem unready_of_new_error (config : Config) (env : StsEnv) (e : JsError)
    (h : (BedrockClient.new config env).result = .error e) :
    Unready (BedrockClient.new config env).client e := by
  unfold BedrockClient.new at h ⊢
  simp only at h ⊢
  refine ⟨?_, h⟩
  show (_initializeClient _ env).client.initialized = false
  rw [initializeClient_client_of_error _ env e h]

/-- While no refresh succeeds, an un-ready client stays un-ready and each of its chat
calls fails with the initialization error without sending anything. -/
theorem unready_history (e : JsError) (calls : List ClientCall) (self : BedrockClient)
    (hun : Unready self e)
    (hrefresh : ∀ r ∈ history self calls, r.call.isRefresh = true → r.failure ≠ none) :
    (∀ r ∈ history self calls, r.call.isRefresh = false →
      r.failure = some e ∧ r.sent = [] ∧ r.client.initialized = false) ∧
    Unready (clientAfter self calls) e := by
  induction calls generalizing self with
  | nil => exact ⟨fun r hr => by simp [history] at hr, hun⟩
  | cons call rest ih =>
    have hstep : Unready (performCall self call).client e ∧
        (call.isRefresh = false → (performCall self call).failure = some e ∧
          (performCall self call).sent = [] ∧
          (performCall self call).client.initialized = false) := by
      cases call with
      | chat w messages stream =>
        have hc := createChatCompletion_of_unready self w messages stream e hun.1 hun.2
        have hp : performCall self (.chat w messages stream) =
            { call := .chat w messages stream, failure := some e, client := self,
              stsCalls := [], sent := [] } := by
          simp only [performCall, hc, errorOf]
        rw [hp]
        exact ⟨hun, fun _ => ⟨rfl, rfl, hun.1⟩⟩
      | refresh now env forceRefresh =>
        have hne := hrefresh (performCall self (.refresh now env forceRefresh))
          (by simp [history]) rfl
        simp only [performCall] at hne ⊢
        cases hres : (refreshCredentialsIfNeeded self now env forceRefresh).result with
        | ok u => simp [hres, errorOf] at hne
        | error e2 =>
          have hcl := refresh_client_of_error self now env forceRefresh e2 hres
          rw [hcl]
          exact ⟨⟨rfl, hun.2⟩, fun h => by simp [ClientCall.isRefresh] at h⟩
    have hrest := ih (performCall self call).client hstep.1
      (fun r hr => hrefresh r (by simp [history, hr]))
    refine ⟨?_, hrest.2⟩
    intro r hr hchat
    simp only [history, List.mem_cons] at hr
    rcases hr with hr | hr
    · subst hr
      have hcall : (performCall self call).call = call := by cases call <;> rfl
      exact hstep.2 (hcall ▸ hchat)
    · exact hrest.1 r hr hchat

/-- C12. If the first initialization fails with `e`, `initialized` stays false, and through
any sequence of later calls in which no refresh succeeds, every `createChatCompletion`
call (any messages, either streaming mode) fails with `e` and sends no inference request,
the client remaining un-ready. -/
theorem failed_initialization_blocks (config : Config) (env : StsEnv) (e : JsError)
    (hfail : (BedrockClient.new config env).result = .error e) :
    (BedrockClient.new config env).client.initialized = false ∧
    ∀ calls : List ClientCall,
      (∀ r ∈ history (BedrockClient.new config env).client calls,
        r.call.isRefresh = true → r.failure ≠ none) →
      (∀ r ∈ history (BedrockClient.new config env).client calls, r.call.isRefresh = false →
        r.failure = some e ∧ r.sent = [] ∧ r.client.initialized = false) ∧
      ∀ (w : World) (messages : JsVal) (stream : Bool),
        (createChatCompletion (clientAfter (BedrockClient.new config env).client calls)
            w messages stream).result = .error e ∧
        (createChatCompletion (clientAfter (BedrockClient.new config env).client calls)
            w messages stream).sent = [] := by
  have hun := unready_of_new_error config env e hfail
  refine ⟨hun.1, ?_⟩
  intro calls hrefresh
  obtain ⟨h1, h2⟩ := unready_history e calls _ hun hrefresh
  refine ⟨h1, ?_⟩
  intro w messages stream
  rw [createChatCompletion_of_unready _ w messages stream e h2.1 h2.2]
  exact ⟨rfl, rfl⟩

/-- C12 (witness). The Security Token Service refuses the role at construction and at a
later forced refresh: the chat calls before and after that refresh fail with the
refusal, nothing is sent, and a further call fails in the same way. -/
theorem failed_initialization_blocks_witness :
    (BedrockClient.new (sampleConfig (some "arn:aws:iam::1:role/r")) denyingSts).result =
      .error (.upstream 403 "AccessDenied") ∧
    refusedStart.initialized = false ∧
    (history refusedStart refusedScenario).map (fun r => r.failure) =
      [some (.upstream 403 "AccessDenied"), some (.upstream 403 "AccessDenied"),
        some (.upstream 403 "AccessDenied")] ∧
    (createChatCompletion (clientAfter refusedStart refusedScenario)
      (stubWorld (replyWith [textBlock "Hello"]) [] none) hiMessages false).result =
        .error (.upstream 403 "AccessDenied") ∧
    (createChatCompletion (clientAfter refusedStart refusedScenario)
      (stubWorld (replyWith [textBlock "Hello"]) [] none) hiMessages false).sent = [] :=
  have h := failed_initialization_blocks (sampleConfig (some "arn:aws:iam::1:role/r")) denyingSts
    (.upstream 403 "AccessDenied") rfl
  have h2 := (h.2 refusedScenario (by decide)).2
    (stubWorld (replyWith [textBlock "Hello"]) [] none) hiMessages false
  ⟨rfl, h.1, rfl, h2.1, h2.2⟩

/-- C13 (failing input). A delegated client is constructed with credentials that expire in
one hour; a forced refresh is then refused, which leaves `initialized` false; the next
`createChatCompletion` nevertheless waits on the constructor's resolved promise, skips
the refresh (the stored expiry is not near) and sends an inference request with
`initialized` still false. -/
theorem stale_promise_sends_while_uninitialized :
    delegatedStart.initialized = true ∧
    (history delegatedStart staleScenario).map (fun r => r.failure) =
      [some (.upstream 403 "AccessDenied"), none] ∧
    (history delegatedStart staleScenario).map (fun r => r.client.initialized) =
      [false, false] ∧
    (history delegatedStart staleScenario).map (fun r => r.sent.length) = [0, 1] ∧
    (history delegatedStart staleScenario).map (fun r => r.stsCalls.length) = [2, 0] := by
  refine ⟨rfl, rfl, rfl, rfl, rfl⟩

/-- C18 (failing input). With a role identifier of three spaces `_initializeClient` takes
the default-credential branch, yet `refreshCredentialsIfNeeded` treats the identifier
as a configured role: as no expiry is ever stored, each readiness step runs
`_initializeClient` again. -/
theorem blank_role_is_reinitialized :
    useAssumedRole (some "   ") = false ∧
    blankRoleStart.bedrockClient = some { region := "us-east-1", credentials := none } ∧
    blankRoleStart.initialized = true ∧
    blankRoleStart.credentialsExpiration = none ∧
    refreshCredentialsIfNeeded blankRoleStart 0 (sampleSts (some 3600000)) false =
      _initializeClient { blankRoleStart with initialized := false } (sampleSts (some 3600000)) ∧
    (refreshCredentialsIfNeeded blankRoleStart 0 (sampleSts (some 3600000)) false).stsCalls =
      [.getCallerIdentity] ∧
    (readinessSteps blankRoleStart (stubWorld .null [] none)).diagnostics =
      [.currentIdentity] := by
  refine ⟨by decide, rfl, rfl, rfl, rfl, rfl, rfl⟩

/-! ## Interleaved refreshes -/

/-- Run alone, the segments of a refresh are the method `refreshCredentialsIfNeeded`: same
client fields, same result, same requests. -/
theorem refreshSegments_sequential (self : BedrockClient) (now : Int) (env : StsEnv)
    (forceRefresh : Bool) :
    (interleave now env env self forceRefresh false [true, true, true, true]).client =
      (refreshCredentialsIfNeeded self now env forceRefresh).client ∧
    (interleave now env env self forceRefresh false [true, true, true, true]).callerA =
      .done (refreshCredentialsIfNeeded self now env forceRefresh).result ∧
    (interleave now env env self forceRefresh false [true, true, true, true]).stsCalls =
      (refreshCredentialsIfNeeded self now env forceRefresh).stsCalls := by
  unfold interleave refreshCredentialsIfNeeded
  by_cases hg : (roleTruthy self.crossAccountRoleArn
      && shouldRefresh self.credentialsExpiration now forceRefresh) = true
  · have htr : roleTruthy self.crossAccountRoleArn = true := (Bool.and_eq_true _ _ ▸ hg).1
    have hsr : shouldRefresh self.credentialsExpiration now forceRefresh = true :=
      (Bool.and_eq_true _ _ ▸ hg).2
    rw [if_pos hg]
    cases hrole : self.crossAccountRoleArn with
    | none => simp [hrole, roleTruthy] at htr
    | some roleArn =>
      rw [hrole] at htr
      by_cases hdel : useAssumedRole (some roleArn) = true
      · cases ha : env.assumeRole roleArn with
        | error e =>
          simp [List.foldl, Interleaving.step, refreshSegment, htr, hsr, hrole, hdel, ha,
            _initializeClient, assumeRole]
        | ok credentials =>
          simp [List.foldl, Interleaving.step, refreshSegment, htr, hsr, hrole, hdel, ha,
            _initializeClient, assumeRole]
      · simp [List.foldl, Interleaving.step, refreshSegment, htr, hsr, hrole, hdel,
          _initializeClient]
  · rw [if_neg hg]
    simp [List.foldl, Interleaving.step, refreshSegment, hg]

theorem assumeRoleCount_append (xs ys : List StsCall) :
    assumeRoleCount (xs ++ ys) = assumeRoleCount xs + assumeRoleCount ys := by
  simp [assumeRoleCount, List.filter_append]

/-- One segment of a forced refresh on a client delegated to `roleArn`. -/
theorem refreshSegment_delegated (self : BedrockClient) (now : Int) (env : StsEnv)
    (pc : RefreshPc) (roleArn : String)
    (hrole : self.crossAccountRoleArn = some roleArn)
    (hdel : useAssumedRole (some roleArn) = true)
    (hpc : pc ≠ .start false)
    (harn : ∀ arn, pc = .awaitAssumeRole arn → arn = roleArn) :
    (refreshSegment self now env pc).1.crossAccountRoleArn = some roleArn ∧
    (refreshSegment self now env pc).1.regionName = self.regionName ∧
    (refreshSegment self now env pc).2.1 ≠ .start false ∧
    (∀ arn, (refreshSegment self now env pc).2.1 = .awaitAssumeRole arn → arn = roleArn) ∧
    assumeRoleCount (refreshSegment self now env pc).2.2 + pc.exchanged =
      (refreshSegment self now env pc).2.1.exchanged ∧
    (((refreshSegment self now env pc).1.bedrockClient = self.bedrockClient ∧
        (refreshSegment self now env pc).1.credentialsExpiration = self.credentialsExpiration) ∨
      ∃ credentials : Credentials, env.assumeRole roleArn = .ok credentials ∧
        (refreshSegment self now env pc).1.bedrockClient =
          some { region := self.regionName, credentials := some credentials } ∧
        (refreshSegment self now env pc).1.credentialsExpiration = credentials.expiration) := by
  have htruthy : roleTruthy (some roleArn) = true := by
    simp only [useAssumedRole, Bool.and_eq_true] at hdel
    exact hdel.1
  cases pc with
  | start forceRefresh =>
    cases forceRefresh with
    | false => exact absurd rfl hpc
    | true =>
      simp [refreshSegment, htruthy, shouldRefresh, hrole, assumeRoleCount,
        StsCall.isAssumeRole, RefreshPc.exchanged]
  | awaitIdentity =>
    simp [refreshSegment, hrole, hdel, assumeRoleCount, StsCall.isAssumeRole,
      RefreshPc.exchanged]
  | awaitAssumeRole arn =>
    have harn2 : arn = roleArn := harn arn rfl
    subst harn2
    cases ha : env.assumeRole arn with
    | error e =>
      simp [refreshSegment, ha, hrole, assumeRoleCount, RefreshPc.exchanged]
    | ok credentials =>
      simp [refreshSegment, ha, hrole, assumeRoleCount, StsCall.isAssumeRole,
        RefreshPc.exchanged]
  | awaitVerify credentials =>
    simp [refreshSegment, hrole, assumeRoleCount, RefreshPc.exchanged]
  | done result =>
    simp [refreshSegment, hrole, assumeRoleCount, RefreshPc.exchanged]

/-- Every segment of either caller preserves the invariant of two forced refreshes. -/
theorem refreshInvariant_step (now : Int) (envA envB : StsEnv) (roleArn : String)
    (initial : BedrockClient) (s : Interleaving) (pickA : Bool)
    (hdel : useAssumedRole (some roleArn) = true)
    (h : RefreshInvariant envA envB roleArn initial s) :
    RefreshInvariant envA envB roleArn initial (Interleaving.step now envA envB s pickA) := by
  obtain ⟨hrole, hreg, hA, hB, harnA, harnB, hcount, hunt⟩ := h
  cases pickA with
  | true =>
    obtain ⟨h1, h2, h3, h4, h5, h6⟩ :=
      refreshSegment_delegated s.client now envA s.callerA roleArn hrole hdel hA harnA
    simp only [Interleaving.step, if_true]
    refine ⟨h1, h2.trans hreg, h3, hB, h4, harnB, ?_, ?_⟩
    · show assumeRoleCount (s.stsCalls ++ (refreshSegment s.client now envA s.callerA).2.2) =
        (refreshSegment s.client now envA s.callerA).2.1.exchanged + s.callerB.exchanged
      rw [assumeRoleCount_append, hcount]
      omega
    · rcases h6 with ⟨hb, he⟩ | ⟨credentials, hok, hb, he⟩
      · rcases hunt with ⟨ub, ue⟩ | ⟨credentials, hok, ub, ue⟩
        · exact Or.inl ⟨hb.trans ub, he.trans ue⟩
        · exact Or.inr ⟨credentials, hok, hb.trans ub, he.trans ue⟩
      · exact Or.inr ⟨credentials, Or.inl hok, by rw [hb, hreg], he⟩
  | false =>
    obtain ⟨h1, h2, h3, h4, h5, h6⟩ :=
      refreshSegment_delegated s.client now envB s.callerB roleArn hrole hdel hB harnB
    simp only [Interleaving.step, Bool.false_eq_true, if_false]
    refine ⟨h1, h2.trans hreg, hA, h3, harnA, h4, ?_, ?_⟩
    · show assumeRoleCount (s.stsCalls ++ (refreshSegment s.client now envB s.callerB).2.2) =
        s.callerA.exchanged + (refreshSegment s.client now envB s.callerB).2.1.exchanged
      rw [assumeRoleCount_append, hcount]
      omega
    · rcases h6 with ⟨hb, he⟩ | ⟨credentials, hok, hb, he⟩
      · rcases hunt with ⟨ub, ue⟩ | ⟨credentials, hok, ub, ue⟩
        · exact Or.inl ⟨hb.trans ub, he.trans ue⟩
        · exact Or.inr ⟨credentials, hok, hb.trans ub, he.trans ue⟩
      · exact Or.inr ⟨credentials, Or.inr hok, by rw [hb, hreg], he⟩

/-- The invariant holds after every schedule. -/
theorem refreshInvariant_foldl (now : Int) (envA envB : StsEnv) (roleArn : String)
    (initial : BedrockClient) (hdel : useAssumedRole (some roleArn) = true)
    (schedule : List Bool) (s : Interleaving)
    (h : RefreshInvariant envA envB roleArn initial s) :
    RefreshInvariant envA envB roleArn initial
      (schedule.foldl (Interleaving.step now envA envB) s) := by
  induction schedule generalizing s with
  | nil => exact h
  | cons pick rest ih =>
    exact ih _ (refreshInvariant_step now envA envB roleArn initial s pick hdel h)

theorem exchanged_of_isDone (pc : RefreshPc) (h : pc.isDone = true) : pc.exchanged = 1 := by
  cases pc <;> simp_all [RefreshPc.isDone, RefreshPc.exchanged]

/-- C16 (as amended). Two calls `refreshCredentialsIfNeeded(true)` in progress at the same
time on a delegated client each make their own role-assumption exchange: under every
interleaving, once both calls have finished exactly two exchanges have been sent (one
per caller, not one in all). At every moment the stored credential is whole: the
inference client and the stored expiry are either both the ones from before the
refreshes or both taken from one set of temporary credentials returned to a caller. -/
theorem concurrent_forced_refreshes (self : BedrockClient) (now : Int) (envA envB : StsEnv)
    (roleArn : String) (schedule : List Bool)
    (hrole : self.crossAccountRoleArn = some roleArn)
    (hdel : useAssumedRole (some roleArn) = true) :
    ((interleave now envA envB self true true schedule).callerA.isDone = true →
      (interleave now envA envB self true true schedule).callerB.isDone = true →
        assumeRoleCount (interleave now envA envB self true true schedule).stsCalls = 2) ∧
    Untorn envA envB roleArn self (interleave now envA envB self true true schedule).client := by
  have hinit : RefreshInvariant envA envB roleArn self
      { client := self, callerA := .start true, callerB := .start true, stsCalls := [] } := by
    refine ⟨hrole, rfl, ?_, ?_, ?_, ?_, rfl, Or.inl ⟨rfl, rfl⟩⟩
    · intro h; injection h with h; exact Bool.noConfusion h
    · intro h; injection h with h; exact Bool.noConfusion h
    · intro arn h; exact RefreshPc.noConfusion h
    · intro arn h; exact RefreshPc.noConfusion h
  obtain ⟨_, _, _, _, _, _, hcount, hunt⟩ :=
    refreshInvariant_foldl now envA envB roleArn self hdel schedule _ hinit
  refine ⟨?_, hunt⟩
  intro hA hB
  unfold interleave
  rw [hcount]
  have h1 := exchanged_of_isDone _ hA
  have h2 := exchanged_of_isDone _ hB
  unfold interleave at h1 h2
  omega

/-- C16 (witness). Two forced refreshes on a delegated client, the second caller overtaking
the first: both finish, two role-assumption exchanges have been sent, and the stored
expiry is the one of the credentials of the caller whose answer was stored last. -/
theorem concurrent_forced_refreshes_witness :
    (interleave 0 (sampleSts (some 3600000)) otherSts
      (sampleClient (some "arn:aws:iam::1:role/r") (some 240000)) true true
      overtakingSchedule).callerA.isDone = true ∧
    (interleave 0 (sampleSts (some 3600000)) otherSts
      (sampleClient (some "arn:aws:iam::1:role/r") (some 240000)) true true
      overtakingSchedule).callerB.isDone = true ∧
    assumeRoleCount (interleave 0 (sampleSts (some 3600000)) otherSts
      (sampleClient (some "arn:aws:iam::1:role/r") (some 240000)) true true
      overtakingSchedule).stsCalls = 2 ∧
    (interleave 0 (sampleSts (some 3600000)) otherSts
      (sampleClient (some "arn:aws:iam::1:role/r") (some 240000)) true true
      overtakingSchedule).client.credentialsExpiration = some 3600000 :=
  ⟨rfl, rfl,
    (concurrent_forced_refreshes (sampleClient (some "arn:aws:iam::1:role/r") (some 240000)) 0
      (sampleSts (some 3600000)) otherSts "arn:aws:iam::1:role/r" overtakingSchedule rfl
      (by decide)).1 rfl rfl,
    rfl⟩

/-- C16 (counterexample). Two forced refreshes started together on a delegated client, their
answers arriving in turn: both finish, and the Security Token Service has received two
role-assumption requests, not one. -/
theorem concurrent_refresh_counterexample :
    (interleave 0 (sampleSts (some 3600000)) (sampleSts (some 3600000))
      (sampleClient (some "arn:aws:iam::1:role/r") (some 240000)) true true
      alternatingSchedule).callerA.isDone = true ∧
    (interleave 0 (sampleSts (some 3600000)) (sampleSts (some 3600000))
      (sampleClient (some "arn:aws:iam::1:role/r") (some 240000)) true true
      alternatingSchedule).callerB.isDone = true ∧
    (interleave 0 (sampleSts (some 3600000)) (sampleSts (some 3600000))
      (sampleClient (some "arn:aws:iam::1:role/r") (some 240000)) true true
      alternatingSchedule).stsCalls =
      [.getCallerIdentity, .getCallerIdentity,
        .assumeRole "arn:aws:iam::1:role/r" "BedrockExpressSession" 3600,
        .assumeRole "arn:aws:iam::1:role/r" "BedrockExpressSession" 3600,
        .verifyIdentity (sampleCredentials (some 3600000)),
        .verifyIdentity (sampleCredentials (some 3600000))] ∧
    assumeRoleCount (interleave 0 (sampleSts (some 3600000)) (sampleSts (some 3600000))
      (sampleClient (some "arn:aws:iam::1:role/r") (some 240000)) true true
      alternatingSchedule).stsCalls ≠ 1 := by
  refine ⟨rfl, rfl, ?_, ?_⟩
  · decide
  · decide

end BedrockService
